import Mathlib

/-!
Verification of the reg-sci-tracker importer scripts (src/cropdb/data).

The six Python scripts are shallowly embedded here: pure helpers become Lean
functions on `String`/`Option`, the SQLite database becomes an explicit record
of tables (lists of row records), every importer becomes a function from its
parsed input and a database state to the persisted database state plus its
counters and messages.  SQLite `INSERT OR IGNORE` / `INSERT OR REPLACE` are
modelled over the natural keys of each table (the schema itself lives outside
this repository; the keys follow the spec's idempotence statement).  A run's
persisted state is the committed state: statements executed on a connection
that is closed (or abandoned) without `commit` are rolled back, which the
embedding reflects by returning the original database on those paths.

Python division of labour that the embedding keeps faithfully:
* `re.match(r'^\d{7}$', c)` matches seven digits optionally followed by one
  trailing newline (the `$` anchor also matches just before a final newline);
* string truthiness (`not code`) treats `None` and `""` as false;
* `int(...)` / `float(...)` on a malformed string raise, and the embedding
  threads those failures through `Except` exactly where the scripts leave
  them uncaught;  numeric cell and JSON values are modelled as `Rat`
  (no float rounding is relevant to any claim, only parse success).
-/

/-- Decidable suffix test on strings, modelling Python `str.endswith`. -/
def strEndsWith (s t : String) : Bool := decide (t.data <:+ s.data)

/-- Seven characters, all ASCII digits: the language of the regex `\d{7}`
anchored at both ends, ignoring the trailing-newline allowance of `$`. -/
def isSevenDigitStr (c : String) : Bool :=
  c.data.length == 7 && c.data.all Char.isDigit

/-- Python `re.match(r'^\d{7}$', c)`: seven digits, optionally followed by a
single trailing newline (the `$` anchor matches before a final newline). -/
def pyMatchSevenDigits (c : String) : Bool :=
  isSevenDigitStr c || (strEndsWith c "\n" && isSevenDigitStr ⟨c.data.dropLast⟩)

/-- Python `re.match(r'^\d{1,7}$', c)`, with the same `$` newline allowance. -/
def pyMatchDigits1to7 (c : String) : Bool :=
  (1 ≤ c.data.length && c.data.length ≤ 7 && c.data.all Char.isDigit)
    || (strEndsWith c "\n" && 1 ≤ c.data.dropLast.length
          && c.data.dropLast.length ≤ 7 && c.data.dropLast.all Char.isDigit)

/-- Python `str.zfill(7)` on a digit string: left-pad with zeros to width 7. -/
def zfill7 (s : String) : String :=
  ⟨List.replicate (7 - s.data.length) '0' ++ s.data⟩

/-- Python `str.strip()`: drop leading and trailing whitespace.  (Defined on
the character list so that it reduces inside the kernel.) -/
def pyStrip (s : String) : String :=
  ⟨((s.data.dropWhile Char.isWhitespace).reverse.dropWhile Char.isWhitespace).reverse⟩

/-- Python `str.lower()` (ASCII case folding suffices for the names here). -/
def pyLower (s : String) : String :=
  ⟨s.data.map Char.toLower⟩

/-- `parse_hierarchy_level` from import_primo.py.  The argument is `none` for
Python `None` and `some c` for a string `c`; `not code` is the Python
truthiness test, false for `None` and for the empty string. -/
def parse_hierarchy_level (code : Option String) : Option Nat :=
  match code with
  | none => none
  | some c =>
    if c = "" then none
    else if !pyMatchSevenDigits c then none
    else if strEndsWith c "000" then some 1
    else if strEndsWith c "00" then some 2
    else some 3

/-- `parent_code` from import_primo.py, translated branch by branch:
`c[:4]` is `take 4`, `c[:5]` is `take 5`, `c[-2:]` is the last two
characters. -/
def parent_code (code : String) : Option String :=
  if !pyMatchSevenDigits code || strEndsWith code "000" then none
  else if strEndsWith code "00" then some ⟨code.data.take 4 ++ ['0', '0', '0']⟩
  else if (⟨code.data.drop (code.data.length - 2)⟩ : String) ≠ "00" then
    some ⟨code.data.take 5 ++ ['0', '0', '0']⟩
  else none

example : parse_hierarchy_level (some "0110000") = some 1 := by decide
example : parse_hierarchy_level (some "0110010") = some 3 := by decide
example : parse_hierarchy_level (some "0110100") = some 2 := by decide
example : parse_hierarchy_level (some "011001") = none := by decide
example : parse_hierarchy_level none = none := by decide
example : parse_hierarchy_level (some "1234567\n") = some 3 := by decide
example : parent_code "0110100" = some "0110000" := by decide
example : parent_code "0110010" = some "01100000" := by decide
example : parent_code "0110000" = none := by decide

/-! ## Database model

Row records for the tables the six scripts touch.  Field names follow the
SQL column names.  `next_crop_id` models SQLite's rowid allocation used via
`cur.lastrowid` in import_primo.py. -/

structure CropRow where
  crop_id : Nat
  common_name_en : String
  scientific_name : Option String
  is_food_crop : Int
  notes : Option String
deriving DecidableEq, Repr

structure EppoRow where
  eppo_code_id : Nat
  crop_id : Nat
  eppo_code : String
  eppo_name : String
  taxon_level : Option String
deriving DecidableEq, Repr

structure ScenarioRow where
  scenario_id : Nat
  scenario_code : String
  scenario_type_id : Nat
deriving DecidableEq, Repr

structure FocusCropRow where
  focus_crop_id : Nat
  swash_crop_name : String
  bbch_sowing_min : Option Int
  bbch_sowing_max : Option Int
  bbch_harvest_min : Option Int
  bbch_harvest_max : Option Int
  canopy_type : Option String
  root_depth_m : Option Rat
  lai_max : Option Rat
deriving DecidableEq, Repr

structure LinkRow where
  focus_crop_id : Nat
  scenario_id : Nat
  waterbody_type : Option String
  is_default_run : Int
deriving DecidableEq, Repr

structure InterceptionRow where
  focus_crop_id : Nat
  bbch_stage : Int
  interception_pct : Rat
  interception_source : String
deriving DecidableEq, Repr

structure SwCharRow where
  scenario_id : Nat
  scenario_code : String
  weather_dataset_name : String
  latitude_deg : Option Rat
  longitude_deg : Option Rat
  mean_annual_temp_c : Option Rat
  annual_rainfall_mm : Option Rat
  topsoil_texture : Option String
  topsoil_organic_carbon_pct : Option Rat
  slope_pct : Option String
  water_bodies : Option String
  source_reference : String
deriving DecidableEq, Repr

structure IrrRow where
  focus_crop_id : Nat
  scenario_id : Nat
  irrigation_mm_annual : Rat
  source_reference : String
deriving DecidableEq, Repr

structure Reg396Row where
  crop_id : Nat
  annex1_code : String
  annex1_name : String
  hierarchy_level : Nat
  parent_annex1_code : Option String
  regulation_version : String
deriving DecidableEq, Repr

structure PrimoRow where
  crop_id : Nat
  primo_version : String
  primo_code : String
  primo_name : String
  unit_weight_g : Option Rat
deriving DecidableEq, Repr

/-- The target SQLite database: one list per table, in row order. -/
structure DB where
  crops : List CropRow
  next_crop_id : Nat
  eppo_codes : List EppoRow
  focus_scenarios : List ScenarioRow
  focus_crops : List FocusCropRow
  focus_crop_scenario_links : List LinkRow
  focus_crop_interception : List InterceptionRow
  focus_sw_scenario_characteristics : List SwCharRow
  focus_crop_scenario_irrigation : List IrrRow
  reg396_commodities : List Reg396Row
  primo_commodities : List PrimoRow
deriving DecidableEq, Repr

/-! ## SQLite insert semantics

The schema (with its UNIQUE constraints) is not part of this repository; the
spec's idempotence statement fixes the natural keys, which are recorded here
per table.  `INSERT OR IGNORE` keeps the existing row on a key conflict,
`INSERT OR REPLACE` deletes the conflicting row and appends the new one. -/

def containsKey {α κ : Type} [DecidableEq κ] (key : α → κ) (t : List α) (k : κ) : Bool :=
  t.any fun x => decide (key x = k)

def insert_or_ignore {α κ : Type} [DecidableEq κ] (key : α → κ) (t : List α) (r : α) : List α :=
  if containsKey key t (key r) then t else t ++ [r]

def insert_or_replace {α κ : Type} [DecidableEq κ] (key : α → κ) (t : List α) (r : α) : List α :=
  t.filter (fun x => decide (key x ≠ key r)) ++ [r]

def applyIgnores {α κ : Type} [DecidableEq κ] (key : α → κ) (t : List α) (rs : List α) : List α :=
  rs.foldl (insert_or_ignore key) t

def applyReplaces {α κ : Type} [DecidableEq κ] (key : α → κ) (t : List α) (rs : List α) : List α :=
  rs.foldl (insert_or_replace key) t

def linkKey (r : LinkRow) : Nat × Nat := (r.focus_crop_id, r.scenario_id)

def interceptKey (r : InterceptionRow) : Nat × Int := (r.focus_crop_id, r.bbch_stage)

def swCharKey (r : SwCharRow) : Nat := r.scenario_id

def irrKey (r : IrrRow) : Nat × Nat := (r.focus_crop_id, r.scenario_id)

def reg396Key (r : Reg396Row) : String := r.annex1_code

def primoKey (r : PrimoRow) : String × String := (r.primo_version, r.primo_code)

/-! ## Natural-key lookups used by the scripts -/

/-- `SELECT crop_id FROM crops WHERE common_name_en = ?` (first match). -/
def findCropByName (crops : List CropRow) (name : String) : Option CropRow :=
  crops.find? fun c => c.common_name_en == name

/-- `SELECT focus_crop_id FROM focus_crops WHERE swash_crop_name = ?`. -/
def lookupFocusCropId (fcs : List FocusCropRow) (name : String) : Option Nat :=
  (fcs.find? fun r => r.swash_crop_name == name).map (·.focus_crop_id)

/-- `SELECT scenario_id FROM focus_scenarios WHERE scenario_code = ?`. -/
def lookupScenarioId (ss : List ScenarioRow) (code : String) : Option Nat :=
  (ss.find? fun r => r.scenario_code == code).map (·.scenario_id)

/-- `SELECT scenario_id FROM focus_scenarios WHERE scenario_code = ? AND
scenario_type_id = 1` (the surface-water filter of the FOCUS importers). -/
def lookupSwScenarioId (ss : List ScenarioRow) (code : String) : Option Nat :=
  (ss.find? fun r => r.scenario_code == code && r.scenario_type_id == 1).map (·.scenario_id)

/-! ## import_interception.py

`INTERCEPTION_DATA` is the static table shipped in the script (all
percentages are still `None` stubs); `import_interception` is parameterised
over the table so the claims can also quantify over filled-in tables. -/

def stubSource : String := "EFSA 2020 Repair Action Table 7 — STUB"

def stubRows (bs : List Int) : List (Int × Option Rat × String) :=
  bs.map fun b => (b, none, stubSource)

def INTERCEPTION_DATA : List (String × List (Int × Option Rat × String)) :=
  [ ("Winter cereals",
      (0, none, "EFSA 2020 Repair Action Table 7 — STUB: fill from paper")
        :: stubRows [10, 20, 30, 40, 50, 60, 70, 80, 90]),
    ("Spring cereals", stubRows [0, 10, 20, 30, 40, 50, 60, 70, 80, 90]),
    ("Maize", stubRows [0, 10, 20, 30, 40, 50, 60, 70, 80, 90]),
    ("Winter oilseed rape", stubRows [0, 10, 20, 30, 40, 50, 60, 70, 80, 90]),
    ("Potatoes", stubRows [0, 10, 20, 30, 40, 50, 60, 70, 80, 90]),
    ("Sugar beet", stubRows [0, 10, 20, 30, 40, 50, 60, 70, 80, 90]),
    ("Apples and pears", stubRows [0, 51, 60, 71, 81, 91]),
    ("Vines", stubRows [0, 51, 60, 71, 81, 91]),
    ("Grass", stubRows [0]) ]

structure InterSt where
  tbl : List InterceptionRow
  inserted : Nat
  stubbed : Nat
  skipped : Nat
deriving DecidableEq, Repr

/-- Inner loop of import_interception: one `(bbch, pct, source)` entry of a
crop already resolved to `fid`. -/
def interStageStep (dry_run : Bool) (fid : Nat) (st : InterSt)
    (e : Int × Option Rat × String) : InterSt :=
  match e.2.1 with
  | none => { st with stubbed := st.stubbed + 1 }
  | some pct =>
    if !dry_run then
      { st with
        tbl := insert_or_replace interceptKey st.tbl ⟨fid, e.1, pct, e.2.2⟩,
        inserted := st.inserted + 1 }
    else st

/-- Outer loop of import_interception: one `crop_name -> stages` entry. -/
def interCropStep (db : DB) (dry_run : Bool) (st : InterSt)
    (entry : String × List (Int × Option Rat × String)) : InterSt :=
  match lookupFocusCropId db.focus_crops entry.1 with
  | none => { st with skipped := st.skipped + 1 }
  | some fid => entry.2.foldl (interStageStep dry_run fid) st

/-- `import_interception(db_path, dry_run)`: the pair is the persisted
database (commit only happens when `--apply` is passed) and the counters. -/
def import_interception (tbl_data : List (String × List (Int × Option Rat × String)))
    (dry_run : Bool) (db : DB) : DB × InterSt :=
  let st := tbl_data.foldl (interCropStep db dry_run)
    ⟨db.focus_crop_interception, 0, 0, 0⟩
  ((if dry_run then db else { db with focus_crop_interception := st.tbl }), st)

/-! ## import_swash_json.py -/

/-- The `scenarios` JSON field: a comma-separated string, a list, or absent. -/
inductive ScenField
  | sstr (s : String)
  | slist (l : List String)
  | snone
deriving DecidableEq, Repr

def ScenField.truthy : ScenField → Bool
  | .sstr s => s != ""
  | .slist l => !l.isEmpty
  | .snone => false

/-- `[s.strip() for s in scenarios.split(",") if s.strip()]` for the string
form; the list form is used as is. -/
def scenListOf : ScenField → List String
  | .sstr s => ((s.splitOn ",").map pyStrip).filter fun x => x != ""
  | .slist l => l
  | .snone => []

structure LinkRec where
  crop : Option String
  scenarios : ScenField
deriving DecidableEq, Repr

structure LinksSt where
  tbl : List LinkRow
  inserted : Nat
  skipped : List (String × Option String)
deriving DecidableEq, Repr

/-- Inner loop of import_links: one scenario code of a matched crop. -/
def linkScenStep (db : DB) (dry_run : Bool) (crop_name : String) (fid : Nat)
    (st : LinksSt) (scen_code : String) : LinksSt :=
  match lookupScenarioId db.focus_scenarios (pyStrip scen_code) with
  | none => { st with skipped := st.skipped ++ [(crop_name, some scen_code)] }
  | some sid =>
    let st := { st with inserted := st.inserted + 1 }
    if !dry_run then
      { st with tbl := insert_or_ignore linkKey st.tbl ⟨fid, sid, none, 1⟩ }
    else st

/-- Outer loop of import_links: one `{crop, scenarios}` JSON item. -/
def linkItemStep (db : DB) (dry_run : Bool) (st : LinksSt) (row : LinkRec) : LinksSt :=
  let crop_name := pyStrip (row.crop.getD "")
  if crop_name == "" || !row.scenarios.truthy then st
  else
    match lookupFocusCropId db.focus_crops crop_name with
    | none => { st with skipped := st.skipped ++ [(crop_name, none)] }
    | some fid => (scenListOf row.scenarios).foldl (linkScenStep db dry_run crop_name fid) st

/-- `import_links(json_path, db_path, dry_run)`.  An empty/absent items array
is `sys.exit` before the database is touched; the persisted state follows the
commit-only-on-apply rule. -/
def import_links (items : List LinkRec) (dry_run : Bool) (db : DB) :
    DB × LinksSt × Option String :=
  if items.isEmpty then
    (db, ⟨db.focus_crop_scenario_links, 0, []⟩,
      some "JSON must contain 'crop_scenarios' or 'items' array.")
  else
    let st := items.foldl (linkItemStep db dry_run) ⟨db.focus_crop_scenario_links, 0, []⟩
    ((if dry_run then db else { db with focus_crop_scenario_links := st.tbl }), st, none)

/-! ## import_focus_sw_characteristics.py -/

def SOURCE_REF : String := "Generic FOCUS SWS v1.4 May 2015"

/-- `(x or "").strip() or None`. -/
def stripOrNone (o : Option String) : Option String :=
  let t := pyStrip (o.getD "")
  if t == "" then none else some t

structure CharRec where
  scenario_code : Option String
  weather_dataset_name : Option String
  latitude_deg : Option Rat
  longitude_deg : Option Rat
  mean_annual_temp_c : Option Rat
  annual_rainfall_mm : Option Rat
  topsoil_texture : Option String
  topsoil_organic_carbon_pct : Option Rat
  slope_pct : Option String
  water_bodies : Option String
deriving DecidableEq, Repr

structure CharSt where
  tbl : List SwCharRow
  updated : Nat
  skippedMsgs : List String
deriving DecidableEq, Repr

/-- The `focus_sw_scenario_characteristics` row built for one matched
record. -/
def charRowOf (sid : Nat) (code : String) (s : CharRec) : SwCharRow :=
  ⟨sid, code, pyStrip (s.weather_dataset_name.getD ""), s.latitude_deg,
   s.longitude_deg, s.mean_annual_temp_c, s.annual_rainfall_mm,
   stripOrNone s.topsoil_texture, s.topsoil_organic_carbon_pct,
   stripOrNone s.slope_pct, stripOrNone s.water_bodies, SOURCE_REF⟩

/-- One scenario record of import_characteristics.  A failed lookup prints a
per-record skip line (collected in `skippedMsgs`) and continues. -/
def charStep (db : DB) (dry_run : Bool) (st : CharSt) (s : CharRec) : CharSt :=
  let code := pyStrip (s.scenario_code.getD "")
  if code == "" then st
  else
    match lookupSwScenarioId db.focus_scenarios code with
    | none =>
      { st with skippedMsgs := st.skippedMsgs ++
          ["  Skip scenario " ++ code ++ ": not found in focus_scenarios (surface water)"] }
    | some sid =>
      let st := { st with updated := st.updated + 1 }
      if !dry_run then
        { st with tbl := insert_or_replace swCharKey st.tbl (charRowOf sid code s) }
      else st

/-- `import_characteristics(json_path, db_path, dry_run)`. -/
def import_characteristics (scenarios : List CharRec) (dry_run : Bool) (db : DB) :
    DB × CharSt × Option String :=
  if scenarios.isEmpty then
    (db, ⟨db.focus_sw_scenario_characteristics, 0, []⟩,
      some "No 'scenarios' or 'items' array")
  else
    let st := scenarios.foldl (charStep db dry_run)
      ⟨db.focus_sw_scenario_characteristics, 0, []⟩
    ((if dry_run then db
      else { db with focus_sw_scenario_characteristics := st.tbl }), st, none)

/-! ## import_irrigation (same file) -/

structure IrrRec where
  scenario_code : Option String
  crop : Option String
  irrigation_mm_annual : Option Rat
deriving DecidableEq, Repr

structure IrrSt where
  tbl : List IrrRow
  inserted : Nat
  skipped : List (String × String)
deriving DecidableEq, Repr

/-- One irrigation record: `if not code or not crop or mm is None: continue`,
then both lookups, skip on either miss, upsert otherwise. -/
def irrStep (db : DB) (dry_run : Bool) (st : IrrSt) (r : IrrRec) : IrrSt :=
  let code := pyStrip (r.scenario_code.getD "")
  let crop := pyStrip (r.crop.getD "")
  match r.irrigation_mm_annual with
  | none => st
  | some mm =>
    if code == "" || crop == "" then st
    else
      match lookupSwScenarioId db.focus_scenarios code,
            lookupFocusCropId db.focus_crops crop with
      | some sid, some fid =>
        let st := { st with inserted := st.inserted + 1 }
        if !dry_run then
          { st with tbl := insert_or_replace irrKey st.tbl ⟨fid, sid, mm, SOURCE_REF⟩ }
        else st
      | none, _ => { st with skipped := st.skipped ++ [(code, crop)] }
      | _, none => { st with skipped := st.skipped ++ [(code, crop)] }

/-- `import_irrigation(json_path, db_path, dry_run)`. -/
def import_irrigation (rows : List IrrRec) (dry_run : Bool) (db : DB) :
    DB × IrrSt × Option String :=
  if rows.isEmpty then
    (db, ⟨db.focus_crop_scenario_irrigation, 0, []⟩,
      some "No 'irrigation' or 'items' array")
  else
    let st := rows.foldl (irrStep db dry_run) ⟨db.focus_crop_scenario_irrigation, 0, []⟩
    ((if dry_run then db
      else { db with focus_crop_scenario_irrigation := st.tbl }), st, none)

/-- `main()` of import_focus_sw_characteristics.py: the explicit
`os.path.exists(args.db)` guard, then the two optional imports. -/
def focus_main (dbExists : Bool) (charJson : Option (List CharRec))
    (irrJson : Option (List IrrRec)) (applyFlag : Bool) (db : DB) :
    DB × Option String :=
  if !dbExists then (db, some "Database not found")
  else
    let dry_run := !applyFlag
    let (db1, halt1) :=
      match charJson with
      | some scs =>
        (match import_characteristics scs dry_run db with
         | (d, _, h) => (d, h))
      | none => (db, none)
    match halt1 with
    | some h => (db1, some h)
    | none =>
      match irrJson with
      | some irs =>
        (match import_irrigation irs dry_run db1 with
         | (d, _, h) => (d, h))
      | none => (db1, none)

/-! ## eppo_verify.py

The two REST endpoints are modelled by an oracle `api` mapping an EPPO code
to either an error message (any exception raised inside the per-code `try`)
or the pair of parsed JSON bodies: the `/taxon` record and the
`/taxon/names` list. -/

structure ApiTaxon where
  fullname : Option String
deriving DecidableEq, Repr

structure ApiName where
  langiso : Option String
  preferred : Option Int
  fullname : Option String
deriving DecidableEq, Repr

/-- First names entry with `langiso == "en"` and `preferred == 1`; the loop
breaks there and takes its `fullname` (which may itself be absent). -/
def findPrefName (ns : List ApiName) : Option String :=
  match ns.find? (fun n => n.langiso == some "en" && n.preferred == some 1) with
  | some n => n.fullname
  | none => none

structure VerifySt where
  issues : List (String × String)
  updates : List (String × String × Nat)
deriving DecidableEq, Repr

/-- One row of the verification loop.  Any oracle error is caught and
recorded as an issue; a truthy preferred name differing case-insensitively
from the stored one queues a `(new_name, new_sci, eppo_code_id)` update. -/
def verifyStep (api : String → Except String (ApiTaxon × List ApiName))
    (st : VerifySt) (row : EppoRow) : VerifySt :=
  match api row.eppo_code with
  | .error e => { st with issues := st.issues ++ [(row.eppo_code, e)] }
  | .ok (taxon, names) =>
    let api_pref_name := findPrefName names
    let api_sci_name := taxon.fullname.getD ""
    let db_name := row.eppo_name
    match api_pref_name with
    | some p =>
      if p != "" && pyLower p != pyLower db_name then
        { st with
          issues := st.issues ++
            [(row.eppo_code, "NAME MISMATCH: DB='" ++ db_name ++ "' API='" ++ p ++ "'")],
          updates := st.updates ++ [(p, api_sci_name, row.eppo_code_id)] }
      else st
    | none => st

/-- The `SELECT ... FROM eppo_codes e JOIN crops c ... ORDER BY e.eppo_code`
row set: eppo rows with a matching crop, sorted by code. -/
def verifyRows (db : DB) : List EppoRow :=
  (db.eppo_codes.filter fun e => containsKey CropRow.crop_id db.crops e.crop_id).mergeSort
    fun a b => decide (a.eppo_code ≤ b.eppo_code)

/-- `UPDATE eppo_codes SET eppo_name = ? WHERE eppo_code_id = ?` on one row. -/
def nameUpd (u : String × String × Nat) (e : EppoRow) : EppoRow :=
  if e.eppo_code_id == u.2.2 then { e with eppo_name := u.1 } else e

/-- The scalar subquery `SELECT crop_id FROM eppo_codes WHERE eppo_code_id = ?`
(NULL when no row matches, making the outer UPDATE match nothing). -/
def eppoCropOf (eppo : List EppoRow) (n : Nat) : Option Nat :=
  (eppo.find? fun e => e.eppo_code_id == n).map (·.crop_id)

/-- The guarded `UPDATE crops SET scientific_name = ?` on one row: only the
linked crop, only where the existing value is NULL or empty. -/
def sciUpd (ns : String) (cid : Nat) (c : CropRow) : CropRow :=
  if c.crop_id == cid && (c.scientific_name == none || c.scientific_name == some "") then
    { c with scientific_name := some ns }
  else c

/-- One queued correction applied in the apply phase: set
`eppo_codes.eppo_name`, then fill `crops.scientific_name` through the
`crop_id` subquery, only where it is NULL or empty and only when the new
scientific name is non-empty. -/
def applyUpdate1 (db : DB) (u : String × String × Nat) : DB :=
  if u.2.1 != "" then
    match eppoCropOf (db.eppo_codes.map (nameUpd u)) u.2.2 with
    | some cid =>
      { db with
        eppo_codes := db.eppo_codes.map (nameUpd u),
        crops := db.crops.map (sciUpd u.2.1 cid) }
    | none => { db with eppo_codes := db.eppo_codes.map (nameUpd u) }
  else { db with eppo_codes := db.eppo_codes.map (nameUpd u) }

def applyUpdates (us : List (String × String × Nat)) (db : DB) : DB :=
  us.foldl applyUpdate1 db

/-- `verify_codes(db_path, token, dry_run)`.  Returns the persisted database,
the issue and update queues, and the early-exit message when the `requests`
library is absent. -/
def verify_codes (api : String → Except String (ApiTaxon × List ApiName))
    (hasRequests : Bool) (dry_run : Bool) (db : DB) : DB × VerifySt × Option String :=
  let rows := verifyRows db
  if !hasRequests then
    (db, ⟨[], []⟩, some "requests library not installed. Run: pip install requests")
  else
    let st := rows.foldl (verifyStep api) ⟨[], []⟩
    if !st.updates.isEmpty && !dry_run then (applyUpdates st.updates db, st, none)
    else (db, st, none)

/-! ## Python numeric parsing

`int(...)` accepts an optionally signed digit string (whitespace stripped);
`float(...)` additionally accepts a decimal point.  Exponents and the exotic
float spellings are not needed by any claim: only that well-formed numbers
parse and letter garbage raises. -/

def digitsVal (l : List Char) : Nat :=
  l.foldl (fun a c => a * 10 + (c.toNat - 48)) 0

def pyInt? (s : String) : Option Int :=
  let t := (pyStrip s).data
  let sgn : Int := match t with | '-' :: _ => -1 | _ => 1
  let u := match t with | '-' :: r => r | '+' :: r => r | _ => t
  if u.isEmpty || !u.all Char.isDigit then none
  else some (sgn * (digitsVal u : Int))

def pyFloat? (s : String) : Option Rat :=
  let t := (pyStrip s).data
  let sgn : Rat := match t with | '-' :: _ => -1 | _ => 1
  let u := match t with | '-' :: r => r | '+' :: r => r | _ => t
  let ipart := u.takeWhile Char.isDigit
  match u.dropWhile Char.isDigit with
  | [] => if ipart.isEmpty then none else some (sgn * (digitsVal ipart : Rat))
  | '.' :: fpart =>
    if !fpart.all Char.isDigit then none
    else if ipart.isEmpty && fpart.isEmpty then none
    else some (sgn * ((digitsVal ipart : Rat)
      + (digitsVal fpart : Rat) / ((10 : Rat) ^ fpart.length)))
  | _ => none

def parseIntField (s : String) : Except String Int :=
  match pyInt? s with
  | some v => .ok v
  | none => .error ("invalid literal for int() with base 10: '" ++ s ++ "'")

def parseFloatField (s : String) : Except String Rat :=
  match pyFloat? s with
  | some v => .ok v
  | none => .error ("could not convert string to float: '" ++ s ++ "'")

/-- A guarded field of the SWASH crop update: set only when the stripped
column is non-empty, raising where `int(...)` would. -/
def parseOptInt (s : String) : Except String (Option Int) :=
  if s == "" then .ok none else (parseIntField s).map some

def parseOptFloat (s : String) : Except String (Option Rat) :=
  if s == "" then .ok none else (parseFloatField s).map some

/-- Exception-propagating left fold: the loop body of the scripts whose
per-item code can raise uncaught exceptions. -/
def foldE {σ α : Type} (f : σ → α → Except String σ) : σ → List α → Except String σ
  | s, [] => .ok s
  | s, a :: as =>
    match f s a with
    | .ok s' => foldE f s' as
    | .error e => .error e

/-! ## import_swash_mdb.py (CSV path) -/

/-- One `csv.DictReader` row: column name to value. -/
abbrev CsvRow := List (String × String)

/-- `row.get(k, d)`. -/
def rowGet (r : CsvRow) (k d : String) : String :=
  match r.find? (fun p => p.1 == k) with
  | some p => p.2
  | none => d

/-- Overlay one optional value: `some` in the update dict wins. -/
def ov {α : Type} (p cur : Option α) : Option α :=
  match p with
  | some v => some v
  | none => cur

/-- The `updates` dict built for one SWASH crop row (absent keys are
`none`). -/
structure CropPatch where
  bbch_sowing_min : Option Int := none
  bbch_sowing_max : Option Int := none
  bbch_harvest_min : Option Int := none
  bbch_harvest_max : Option Int := none
  canopy_type : Option String := none
  root_depth_m : Option Rat := none
  lai_max : Option Rat := none
deriving DecidableEq, Repr

def CropPatch.nonEmpty (p : CropPatch) : Bool :=
  p.bbch_sowing_min.isSome || p.bbch_sowing_max.isSome
    || p.bbch_harvest_min.isSome || p.bbch_harvest_max.isSome
    || p.canopy_type.isSome || p.root_depth_m.isSome || p.lai_max.isSome

/-- The dynamic `UPDATE focus_crops SET ...` applied to one row. -/
def applyPatch (r : FocusCropRow) (p : CropPatch) : FocusCropRow :=
  { r with
    bbch_sowing_min := ov p.bbch_sowing_min r.bbch_sowing_min,
    bbch_sowing_max := ov p.bbch_sowing_max r.bbch_sowing_max,
    bbch_harvest_min := ov p.bbch_harvest_min r.bbch_harvest_min,
    bbch_harvest_max := ov p.bbch_harvest_max r.bbch_harvest_max,
    canopy_type := ov p.canopy_type r.canopy_type,
    root_depth_m := ov p.root_depth_m r.root_depth_m,
    lai_max := ov p.lai_max r.lai_max }

/-- `UPDATE focus_crops SET ... WHERE focus_crop_id = ?`. -/
def updateFocusCrops (tbl : List FocusCropRow) (fid : Nat) (p : CropPatch) :
    List FocusCropRow :=
  tbl.map fun fc => if fc.focus_crop_id == fid then applyPatch fc p else fc

/-- The `updates` dict of one crop row, with the `int`/`float` conversions in
source order (`col` strips each value first).  These conversions are NOT
wrapped in try/except in the script: a malformed value propagates. -/
def cropPatchOfRow (r : CsvRow) : Except String CropPatch := do
  let em_min ← parseOptInt (pyStrip (rowGet r "BBCHemergenceMin" ""))
  let em_max ← parseOptInt (pyStrip (rowGet r "BBCHemergenceMax" ""))
  let har_min ← parseOptInt (pyStrip (rowGet r "BBCHharvestMin" ""))
  let har_max ← parseOptInt (pyStrip (rowGet r "BBCHharvestMax" ""))
  let canopy := pyStrip (rowGet r "CanopyType" "")
  let root ← parseOptFloat (pyStrip (rowGet r "RootDepth" ""))
  let lai ← parseOptFloat (pyStrip (rowGet r "LAImax" ""))
  .ok ⟨em_min, em_max, har_min, har_max,
       (if canopy == "" then none else some canopy), root, lai⟩

structure SwashCropSt where
  focus_crops : List FocusCropRow
  updated_crops : Nat
  skipped_crops : List String
deriving DecidableEq, Repr

/-- One row of the `--- Update focus_crops parameters ---` loop. -/
def swashCropStep (dry_run : Bool) (st : SwashCropSt) (r : CsvRow) :
    Except String SwashCropSt :=
  let name := pyStrip (rowGet r "CropName" "")
  if name == "" then .ok st
  else
    match lookupFocusCropId st.focus_crops name with
    | none => .ok { st with skipped_crops := st.skipped_crops ++ [name] }
    | some fid => do
      let p ← cropPatchOfRow r
      if p.nonEmpty && !dry_run then
        .ok { st with
          focus_crops := updateFocusCrops st.focus_crops fid p,
          updated_crops := st.updated_crops + 1 }
      else .ok st

structure SwashCsSt where
  tbl : List LinkRow
  inserted : Nat
  skipped : List (String × String)
deriving DecidableEq, Repr

/-- One row of the `--- Insert focus_crop_scenario_links ---` loop; the
`int(... or 1)` parse precedes the two lookups, as in the script. -/
def swashCsStep (scens : List ScenarioRow) (fcs : List FocusCropRow)
    (dry_run : Bool) (st : SwashCsSt) (r : CsvRow) : Except String SwashCsSt := do
  let crop_name := pyStrip (rowGet r "CropName" "")
  let scen_code := pyStrip (rowGet r "ScenarioCode" "")
  let waterbody := pyStrip (rowGet r "WaterbodyType" "")
  let dflt := rowGet r "IsDefault" "1"
  let is_default ← if dflt == "" then pure (1 : Int) else parseIntField dflt
  match lookupFocusCropId fcs crop_name, lookupScenarioId scens scen_code with
  | some fid, some sid =>
    if !dry_run then
      .ok { st with
        tbl := insert_or_ignore linkKey st.tbl ⟨fid, sid, some waterbody, is_default⟩,
        inserted := st.inserted + 1 }
    else .ok st
  | none, _ => .ok { st with skipped := st.skipped ++ [(crop_name, scen_code)] }
  | some _, none => .ok { st with skipped := st.skipped ++ [(crop_name, scen_code)] }

structure SwashOut where
  persisted : DB
  halt : Option String
  updated_crops : Nat
  skipped_crops : List String
  inserted : Nat
  skipped : List (String × String)
deriving DecidableEq, Repr

/-- `import_from_csv(csv_dir, db_path, dry_run)`: crop-parameter loop, then
crop-scenario link loop, committing only with `--apply`.  An uncaught
per-row exception aborts the run before `conn.commit()`, so the persisted
state on `halt` is the original database. -/
def import_from_csv (crops cs_rows : List CsvRow) (dry_run : Bool) (db : DB) :
    SwashOut :=
  match foldE (swashCropStep dry_run) ⟨db.focus_crops, 0, []⟩ crops with
  | .error e => ⟨db, some e, 0, [], 0, []⟩
  | .ok cst =>
    match foldE (swashCsStep db.focus_scenarios cst.focus_crops dry_run)
        ⟨db.focus_crop_scenario_links, 0, []⟩ cs_rows with
    | .error e => ⟨db, some e, cst.updated_crops, cst.skipped_crops, 0, []⟩
    | .ok sst =>
      let final := { db with
        focus_crops := cst.focus_crops,
        focus_crop_scenario_links := sst.tbl }
      ⟨(if dry_run then db else final), none, cst.updated_crops,
        cst.skipped_crops, sst.inserted, sst.skipped⟩

/-! ## import_primo.py -/

/-- An openpyxl cell value (`data_only=True`): a string, an integer, or an
empty cell.  Float-valued cells are not modelled; no claim depends on them. -/
inductive Cell
  | cstr (s : String)
  | cint (n : Int)
  | cnone
deriving DecidableEq, Repr

def Cell.truthy : Cell → Bool
  | .cstr s => s != ""
  | .cint n => n != 0
  | .cnone => false

/-- `str(cell or "")`. -/
def cellStrOr (c : Cell) : String :=
  if c.truthy then
    match c with
    | .cstr s => s
    | .cint n => toString n
    | .cnone => ""
  else ""

/-- `float(cell) if cell else None`, raising on a non-numeric string;  this
conversion sits inside the parse loop with no try/except around it. -/
def cellFloat? : Cell → Except String (Option Rat)
  | .cstr s =>
    if s == "" then .ok none
    else
      match pyFloat? s with
      | some q => .ok (some q)
      | none => .error ("could not convert string to float: '" ++ s ++ "'")
  | .cint n => if n == 0 then .ok none else .ok (some (n : Rat))
  | .cnone => .ok none

def SHEET_COMMODITY : String := "Commodity list"
def COL_ANNEX1_CODE : Nat := 1
def COL_ANNEX1_NAME : Nat := 2
def COL_PRIMO_NAME : Nat := 3
def COL_UNIT_WEIGHT : Nat := 4
def HEADER_ROWS : Nat := 3

/-- Python `x or d` on an optional level. -/
def pyOrNat (o : Option Nat) (d : Nat) : Nat :=
  match o with
  | some n => if n == 0 then d else n
  | none => d

def unknownCropNotes : String :=
  "Placeholder for PRIMo commodities not yet matched to a crop_id. Update crop_id after reviewing the commodity name."

/-- The get-or-create of the `'Unknown (unmapped)'` placeholder crop; the
second component is `unknown_crop_id` (`cur.lastrowid` on insert). -/
def ensureUnknownCrop (db : DB) : DB × Nat :=
  match findCropByName db.crops "Unknown (unmapped)" with
  | some c => (db, c.crop_id)
  | none =>
    ({ db with
        crops := db.crops ++
          [⟨db.next_crop_id, "Unknown (unmapped)", none, 0, some unknownCropNotes⟩],
        next_crop_id := db.next_crop_id + 1 },
     db.next_crop_id)

/-- The worksheet row loop of import_primo.py, building `reg396_rows` and
`primo_rows`.  `uid` is the placeholder crop id. -/
def parsePrimoRows (uid : Nat) (primo_version : String) :
    List (List Cell) → Except String (List Reg396Row × List PrimoRow)
  | [] => .ok ([], [])
  | row :: rest =>
    if !row.any Cell.truthy then parsePrimoRows uid primo_version rest
    else
      let annex1_code0 := pyStrip (cellStrOr (row.getD (COL_ANNEX1_CODE - 1) .cnone))
      let annex1_name := pyStrip (cellStrOr (row.getD (COL_ANNEX1_NAME - 1) .cnone))
      let primo_name := pyStrip (cellStrOr (row.getD (COL_PRIMO_NAME - 1) .cnone))
      let unit_weight := row.getD (COL_UNIT_WEIGHT - 1) .cnone
      if annex1_code0 == "" || annex1_name == "" then parsePrimoRows uid primo_version rest
      else
        let annex1_code :=
          if pyMatchDigits1to7 annex1_code0 then zfill7 annex1_code0 else annex1_code0
        let hlevel := parse_hierarchy_level (some annex1_code)
        let pcode := parent_code annex1_code
        let regRow : Reg396Row :=
          ⟨uid, annex1_code, annex1_name, pyOrNat hlevel 3, pcode,
           "Reg (EC) No 396/2005 (as in PRIMo Rev 3.1)"⟩
        if primo_name != "" then do
          let w ← cellFloat? unit_weight
          let (rs, ps) ← parsePrimoRows uid primo_version rest
          .ok (regRow :: rs,
               (⟨uid, primo_version, annex1_code, primo_name, w⟩ : PrimoRow) :: ps)
        else do
          let (rs, ps) ← parsePrimoRows uid primo_version rest
          .ok (regRow :: rs, ps)

/-- A workbook: sheet name to rows of cells. -/
abbrev Workbook := List (String × List (List Cell))

def lookupSheet (wb : Workbook) (name : String) : Option (List (List Cell)) :=
  (wb.find? (fun s => s.1 == name)).map (·.2)

/-- `import_primo(xlsx_path, db_path, dry_run, primo_version)`.  `wb = none`
models a missing workbook file (`load_workbook` raises).  The placeholder
crop is looked up or inserted before the parse loop; in a dry run the
function returns before the insert loops and never commits, so the pending
placeholder insert is rolled back and the persisted database is unchanged. -/
def import_primo (hasOpenpyxl : Bool) (wb : Option Workbook) (dry_run : Bool)
    (primo_version : String) (db : DB) : DB × Option String :=
  if !hasOpenpyxl then (db, some "openpyxl not installed. Run: pip install openpyxl")
  else
    match wb with
    | none => (db, some "No such file or directory")
    | some sheets =>
      match lookupSheet sheets SHEET_COMMODITY with
      | none => (db, some "Adjust SHEET_COMMODITY constant.")
      | some ws =>
        let pu := ensureUnknownCrop db
        match parsePrimoRows pu.2 primo_version (ws.drop HEADER_ROWS) with
        | .error e => (db, some e)
        | .ok (regs, primos) =>
          if dry_run then (db, none)
          else
            let d1 := { pu.1 with
              reg396_commodities := applyIgnores reg396Key pu.1.reg396_commodities regs }
            let d2 := { d1 with
              primo_commodities := applyIgnores primoKey d1.primo_commodities primos }
            (d2, none)

/-! ## Helper lemmas on the string model -/

theorem strEndsWith_suffix {s t : String} (h : strEndsWith s t = true) :
    t.data <:+ s.data := by
  simpa [strEndsWith] using h

theorem ne_empty_of_sevenDigit {c : String} (h : isSevenDigitStr c = true) :
    c ≠ "" := by
  intro he
  subst he
  simp [isSevenDigitStr] at h

theorem data_ne_nil_of_endsWith_newline {c : String}
    (h : strEndsWith c "\n" = true) : c ≠ "" := by
  intro he
  subst he
  simp [strEndsWith] at h

theorem getLast_of_strEndsWith {s t : String} (h : strEndsWith s t = true)
    (ht : t.data ≠ []) : s.data.getLast? = t.data.getLast? := by
  obtain ⟨u, hu⟩ := strEndsWith_suffix h
  rw [← hu]
  exact List.getLast?_append_of_ne_nil u ht

/-- A string ending in a newline cannot end in `"00"` or `"000"`. -/
theorem not_endsWith_zeros_of_newline {c : String}
    (h : strEndsWith c "\n" = true) :
    strEndsWith c "000" = false ∧ strEndsWith c "00" = false := by
  have hl := getLast_of_strEndsWith h (by decide)
  constructor
  · by_contra hz
    have hz' : strEndsWith c "000" = true := by
      cases hzz : strEndsWith c "000" with
      | true => rfl
      | false => exact absurd hzz hz
    have hl2 := getLast_of_strEndsWith hz' (by decide)
    rw [hl] at hl2
    simp at hl2
  · by_contra hz
    have hz' : strEndsWith c "00" = true := by
      cases hzz : strEndsWith c "00" with
      | true => rfl
      | false => exact absurd hzz hz
    have hl2 := getLast_of_strEndsWith hz' (by decide)
    rw [hl] at hl2
    simp at hl2

/-- C3 counterexample input: `"1234567\n"` is not a string of exactly seven
digits, yet the regex `^\d{7}$` accepts it (Python `$` matches before a
trailing newline) and the function returns level 3, not `None`. -/
theorem C3_counterexample :
    parse_hierarchy_level (some "1234567\n") = some 3
      ∧ isSevenDigitStr "1234567\n" = false := by
  decide

/-- C3 (amended): `parse_hierarchy_level` returns 1 for a 7-digit code
ending in three zeros, 2 for one ending in exactly two zeros, 3 for every
other 7-digit code, and `None` for `None` and for every string that is not
exactly seven digits — except that a string of seven digits followed by a
single trailing newline is accepted by the `^\d{7}$` check and yields 3. -/
theorem C3_amended_hierarchy_level :
    (∀ c : String, isSevenDigitStr c = true → strEndsWith c "000" = true →
        parse_hierarchy_level (some c) = some 1)
    ∧ (∀ c : String, isSevenDigitStr c = true → strEndsWith c "000" = false →
        strEndsWith c "00" = true → parse_hierarchy_level (some c) = some 2)
    ∧ (∀ c : String, isSevenDigitStr c = true → strEndsWith c "000" = false →
        strEndsWith c "00" = false → parse_hierarchy_level (some c) = some 3)
    ∧ (∀ c : String, strEndsWith c "\n" = true →
        isSevenDigitStr ⟨c.data.dropLast⟩ = true →
        parse_hierarchy_level (some c) = some 3)
    ∧ (∀ c : String, isSevenDigitStr c = false →
        (strEndsWith c "\n" && isSevenDigitStr ⟨c.data.dropLast⟩) = false →
        parse_hierarchy_level (some c) = none)
    ∧ parse_hierarchy_level none = none := by
  refine ⟨?_, ?_, ?_, ?_, ?_, rfl⟩
  · intro c h7 h000
    simp [parse_hierarchy_level, pyMatchSevenDigits, h7, h000,
      ne_empty_of_sevenDigit h7]
  · intro c h7 h000 h00
    simp [parse_hierarchy_level, pyMatchSevenDigits, h7, h000, h00,
      ne_empty_of_sevenDigit h7]
  · intro c h7 h000 h00
    simp [parse_hierarchy_level, pyMatchSevenDigits, h7, h000, h00,
      ne_empty_of_sevenDigit h7]
  · intro c hnl h7
    obtain ⟨h000, h00⟩ := not_endsWith_zeros_of_newline hnl
    simp [parse_hierarchy_level, pyMatchSevenDigits, hnl, h7, h000, h00,
      data_ne_nil_of_endsWith_newline hnl]
  · intro c h7 hq
    by_cases he : c = ""
    · simp [parse_hierarchy_level, he]
    · simp [parse_hierarchy_level, pyMatchSevenDigits, h7, hq, he]

/-- Witness for `C3_amended_hierarchy_level` at concrete codes. -/
theorem C3_witness :
    parse_hierarchy_level (some "0110000") = some 1
      ∧ parse_hierarchy_level (some "0110100") = some 2
      ∧ parse_hierarchy_level (some "0110010") = some 3
      ∧ parse_hierarchy_level (some "1234567\n") = some 3
      ∧ parse_hierarchy_level (some "011001") = none :=
  ⟨C3_amended_hierarchy_level.1 "0110000" (by decide) (by decide),
   C3_amended_hierarchy_level.2.1 "0110100" (by decide) (by decide) (by decide),
   C3_amended_hierarchy_level.2.2.1 "0110010" (by decide) (by decide) (by decide),
   C3_amended_hierarchy_level.2.2.2.1 "1234567\n" (by decide) (by decide),
   C3_amended_hierarchy_level.2.2.2.2.1 "011001" (by decide) (by decide)⟩

/-- C9: `parent_code` contradicts its own documented example.  On the
level-3 code `'0110010'` the script's own comment promises `'0110000'`, but
the `c[:5] + '000'` branch produces the eight-character `'01100000'`, which
is not a 7-digit Annex I code (the `'00'` branch, by contrast, does produce
a 7-digit code). -/
theorem C9_parent_code_bug :
    parent_code "0110010" = some "01100000"
      ∧ ("01100000" : String).length = 8
      ∧ parent_code "0110100" = some "0110000"
      ∧ parent_code "0110000" = none := by
  decide

/-! ## C1: preview mode never modifies the database -/

/-- C1: for every tool, a run without the apply flag (`dry_run = true`)
leaves the persisted database unchanged, whatever the input content — every
write is either guarded by the flag or rolled back because `commit` is never
reached (import_primo's placeholder insert, and any run aborted by an
uncaught exception). -/
theorem C1_preview_db_unchanged :
    (∀ (hasO : Bool) (wb : Option Workbook) (ver : String) (db : DB),
        (import_primo hasO wb true ver db).1 = db)
    ∧ (∀ (api : String → Except String (ApiTaxon × List ApiName)) (hasR : Bool) (db : DB),
        (verify_codes api hasR true db).1 = db)
    ∧ (∀ (scs : List CharRec) (db : DB), (import_characteristics scs true db).1 = db)
    ∧ (∀ (rows : List IrrRec) (db : DB), (import_irrigation rows true db).1 = db)
    ∧ (∀ (items : List LinkRec) (db : DB), (import_links items true db).1 = db)
    ∧ (∀ (crops cs_rows : List CsvRow) (db : DB),
        (import_from_csv crops cs_rows true db).persisted = db)
    ∧ (∀ (tbl_data : List (String × List (Int × Option Rat × String))) (db : DB),
        (import_interception tbl_data true db).1 = db) := by
  refine ⟨?_, ?_, ?_, ?_, ?_, ?_, ?_⟩
  · intro hasO wb ver db
    cases hasO with
    | false => simp [import_primo]
    | true =>
      cases wb with
      | none => simp [import_primo]
      | some sheets =>
        simp only [import_primo]
        cases lookupSheet sheets SHEET_COMMODITY with
        | none => simp
        | some ws =>
          simp only []
          cases parsePrimoRows (ensureUnknownCrop db).2 ver (ws.drop HEADER_ROWS) with
          | error e => simp
          | ok rp => simp
  · intro api hasR db
    cases hasR with
    | false => simp [verify_codes]
    | true => simp [verify_codes]
  · intro scs db
    by_cases h : scs.isEmpty <;> simp [import_characteristics, h]
  · intro rows db
    by_cases h : rows.isEmpty <;> simp [import_irrigation, h]
  · intro items db
    by_cases h : items.isEmpty <;> simp [import_links, h]
  · intro crops cs_rows db
    simp only [import_from_csv]
    cases foldE (swashCropStep true) ⟨db.focus_crops, 0, []⟩ crops with
    | error e => simp
    | ok cst =>
      simp only []
      cases foldE (swashCsStep db.focus_scenarios cst.focus_crops true)
          ⟨db.focus_crop_scenario_links, 0, []⟩ cs_rows with
      | error e => simp
      | ok sst => simp
  · intro tbl_data db
    simp [import_interception]

/-! ## C6: missing required inputs are fatal before any batch work -/

/-- A small concrete database used by witnesses below. -/
def emptyDB : DB := ⟨[], 1, [], [], [], [], [], [], [], [], []⟩

/-- C6: a missing required library (openpyxl for the PRIMo importer,
requests for the EPPO verifier), a missing workbook file, and a missing
database (the explicit `os.path.exists` guard of the FOCUS importer) each
terminate the run immediately with a message: the persisted database is the
unchanged input and no batch item is processed (the verifier's issue and
update queues come back empty, the FOCUS importer never reaches either
import). -/
theorem C6_missing_inputs_fatal :
    (∀ (wb : Option Workbook) (dry : Bool) (ver : String) (db : DB),
        import_primo false wb dry ver db =
          (db, some "openpyxl not installed. Run: pip install openpyxl"))
    ∧ (∀ (dry : Bool) (ver : String) (db : DB),
        import_primo true none dry ver db = (db, some "No such file or directory"))
    ∧ (∀ (api : String → Except String (ApiTaxon × List ApiName)) (dry : Bool) (db : DB),
        verify_codes api false dry db =
          (db, ⟨[], []⟩, some "requests library not installed. Run: pip install requests"))
    ∧ (∀ (charJson : Option (List CharRec)) (irrJson : Option (List IrrRec))
          (applyFlag : Bool) (db : DB),
        focus_main false charJson irrJson applyFlag db = (db, some "Database not found")) := by
  refine ⟨?_, ?_, ?_, ?_⟩
  · intro wb dry ver db
    simp [import_primo]
  · intro dry ver db
    simp [import_primo]
  · intro api dry db
    simp [verify_codes]
  · intro charJson irrJson applyFlag db
    simp [focus_main]

/-! ## C4: failed natural-key lookups are skipped, not raised -/

/-- C4: in the FOCUS characteristics importer, a record whose scenario-code
lookup finds no row is reported as skipped (one printed skip line per
record), writes nothing, and the loop continues with the remaining records;
in the interception importer, a crop whose name lookup fails increments the
`skipped` counter, writes nothing, and the loop continues.  Neither path can
raise: both loop bodies are total. -/
theorem C4_lookup_miss_skipped :
    (∀ (db : DB) (dry : Bool) (st : CharSt) (s : CharRec) (rest : List CharRec),
      pyStrip (s.scenario_code.getD "") ≠ "" →
      lookupSwScenarioId db.focus_scenarios (pyStrip (s.scenario_code.getD "")) = none →
      charStep db dry st s =
        { st with skippedMsgs := st.skippedMsgs ++
            ["  Skip scenario " ++ pyStrip (s.scenario_code.getD "") ++
              ": not found in focus_scenarios (surface water)"] }
      ∧ (s :: rest).foldl (charStep db dry) st =
          rest.foldl (charStep db dry)
            { st with skippedMsgs := st.skippedMsgs ++
                ["  Skip scenario " ++ pyStrip (s.scenario_code.getD "") ++
                  ": not found in focus_scenarios (surface water)"] })
    ∧ (∀ (db : DB) (dry : Bool) (st : InterSt)
          (entry : String × List (Int × Option Rat × String))
          (rest : List (String × List (Int × Option Rat × String))),
      lookupFocusCropId db.focus_crops entry.1 = none →
      interCropStep db dry st entry = { st with skipped := st.skipped + 1 }
      ∧ (entry :: rest).foldl (interCropStep db dry) st =
          rest.foldl (interCropStep db dry) { st with skipped := st.skipped + 1 }) := by
  constructor
  · intro db dry st s rest hne hmiss
    have hstep : charStep db dry st s =
        { st with skippedMsgs := st.skippedMsgs ++
            ["  Skip scenario " ++ pyStrip (s.scenario_code.getD "") ++
              ": not found in focus_scenarios (surface water)"] } := by
      simp [charStep, hne, hmiss]
    exact ⟨hstep, by rw [List.foldl_cons, hstep]⟩
  · intro db dry st entry rest hmiss
    have hstep : interCropStep db dry st entry = { st with skipped := st.skipped + 1 } := by
      simp [interCropStep, hmiss]
    exact ⟨hstep, by rw [List.foldl_cons, hstep]⟩

/-- Witness for `C4_lookup_miss_skipped`: an empty database, a `"D1"`
scenario record and the `"Maize"` interception entry. -/
theorem C4_witness :
    charStep emptyDB true ⟨[], 0, []⟩ ⟨some "D1", none, none, none, none, none, none, none, none, none⟩ =
      ⟨[], 0, ["  Skip scenario D1: not found in focus_scenarios (surface water)"]⟩
    ∧ interCropStep emptyDB true ⟨[], 0, 0, 0⟩ ("Maize", stubRows [0]) = ⟨[], 0, 0, 1⟩ :=
  ⟨(C4_lookup_miss_skipped.1 emptyDB true ⟨[], 0, []⟩
      ⟨some "D1", none, none, none, none, none, none, none, none, none⟩ []
      (by decide) (by decide)).1,
   (C4_lookup_miss_skipped.2 emptyDB true ⟨[], 0, 0, 0⟩ ("Maize", stubRows [0]) []
      (by decide)).1⟩

/-! ## C5: per-item failures -/

/-- A database with two FOCUS crops, for the SWASH counterexample. -/
def csvDB : DB :=
  { emptyDB with focus_crops :=
      [⟨1, "Maize", none, none, none, none, none, none, none⟩,
       ⟨2, "Vines", none, none, none, none, none, none, none⟩] }

/-- C5 counterexample: a malformed numeric field is NOT caught.  With two
crop rows whose names both match `focus_crops`, a non-numeric
`BBCHemergenceMin` on the first row raises out of the loop: the run halts
with the `int()` error, the second (well-formed) row is never processed and
nothing is committed — although the same second row alone is processed fine.
This contradicts the claim that no per-item failure aborts the batch. -/
theorem C5_counterexample :
    import_from_csv
        [[("CropName", "Maize"), ("BBCHemergenceMin", "abc")],
         [("CropName", "Vines"), ("BBCHemergenceMin", "10")]] [] false csvDB =
      ⟨csvDB, some "invalid literal for int() with base 10: 'abc'", 0, [], 0, []⟩
    ∧ (import_from_csv [[("CropName", "Vines"), ("BBCHemergenceMin", "10")]] []
        false csvDB).halt = none
    ∧ (import_from_csv [[("CropName", "Vines"), ("BBCHemergenceMin", "10")]] []
        false csvDB).updated_crops = 1 := by
  refine ⟨by decide, by decide, by decide⟩

/-- C5 (amended): failures that are unmatched foreign keys or remote-call
exceptions are caught, recorded and never abort the remaining batch — the
EPPO verifier wraps each code in a per-code try/except, and the SWASH
importer turns failed name lookups into skip entries; a malformed numeric
field, however, is outside any try/except in the SWASH CSV importer and
aborts the batch (see the counterexample). -/
theorem C5_amended_per_item_failures :
    (∀ (api : String → Except String (ApiTaxon × List ApiName))
        (st : VerifySt) (row : EppoRow) (rest : List EppoRow) (e : String),
      api row.eppo_code = .error e →
      verifyStep api st row = { st with issues := st.issues ++ [(row.eppo_code, e)] }
      ∧ (row :: rest).foldl (verifyStep api) st =
          rest.foldl (verifyStep api) { st with issues := st.issues ++ [(row.eppo_code, e)] })
    ∧ (∀ (dry : Bool) (st : SwashCropSt) (r : CsvRow) (rest : List CsvRow),
      pyStrip (rowGet r "CropName" "") ≠ "" →
      lookupFocusCropId st.focus_crops (pyStrip (rowGet r "CropName" "")) = none →
      swashCropStep dry st r =
        .ok { st with skipped_crops := st.skipped_crops ++ [pyStrip (rowGet r "CropName" "")] }
      ∧ foldE (swashCropStep dry) st (r :: rest) =
          foldE (swashCropStep dry)
            { st with skipped_crops := st.skipped_crops ++ [pyStrip (rowGet r "CropName" "")] } rest)
    ∧ (∀ (scens : List ScenarioRow) (fcs : List FocusCropRow) (dry : Bool)
          (st : SwashCsSt) (r : CsvRow) (rest : List CsvRow) (d : Int),
      (if rowGet r "IsDefault" "1" == "" then pure (1 : Int)
        else parseIntField (rowGet r "IsDefault" "1")) = Except.ok d →
      lookupFocusCropId fcs (pyStrip (rowGet r "CropName" "")) = none →
      swashCsStep scens fcs dry st r =
        .ok { st with skipped := st.skipped ++
          [(pyStrip (rowGet r "CropName" ""), pyStrip (rowGet r "ScenarioCode" ""))] }
      ∧ foldE (swashCsStep scens fcs dry) st (r :: rest) =
          foldE (swashCsStep scens fcs dry)
            { st with skipped := st.skipped ++
              [(pyStrip (rowGet r "CropName" ""), pyStrip (rowGet r "ScenarioCode" ""))] } rest) := by
  refine ⟨?_, ?_, ?_⟩
  · intro api st row rest e herr
    have hstep : verifyStep api st row =
        { st with issues := st.issues ++ [(row.eppo_code, e)] } := by
      simp [verifyStep, herr]
    exact ⟨hstep, by rw [List.foldl_cons, hstep]⟩
  · intro dry st r rest hne hmiss
    have hstep : swashCropStep dry st r =
        .ok { st with skipped_crops := st.skipped_crops ++ [pyStrip (rowGet r "CropName" "")] } := by
      simp [swashCropStep, hne, hmiss]
    exact ⟨hstep, by simp [foldE, hstep]⟩
  · intro scens fcs dry st r rest d hparse hmiss
    have hstep : swashCsStep scens fcs dry st r =
        .ok { st with skipped := st.skipped ++
          [(pyStrip (rowGet r "CropName" ""), pyStrip (rowGet r "ScenarioCode" ""))] } := by
      by_cases hc : (rowGet r "IsDefault" "1" == "") = true
      · simp [swashCsStep, bind, Except.bind, hc, hmiss, pure, Except.pure]
      · have hp : parseIntField (rowGet r "IsDefault" "1") = Except.ok d := by
          simpa [hc] using hparse
        simp [swashCsStep, bind, Except.bind, hc, hmiss, hp]
    exact ⟨hstep, by simp [foldE, hstep]⟩

/-- Witness for `C5_amended_per_item_failures`: a failing oracle call, an
unmatched SWASH crop row in each loop. -/
theorem C5_witness :
    verifyStep (fun _ => .error "HTTP 404") ⟨[], []⟩ ⟨1, 1, "ZEAMX", "Maize", none⟩ =
      ⟨[("ZEAMX", "HTTP 404")], []⟩
    ∧ swashCropStep false ⟨[], 0, []⟩ [("CropName", "Soybean")] =
        .ok ⟨[], 0, ["Soybean"]⟩
    ∧ swashCsStep [] [] false ⟨[], 0, []⟩ [("CropName", "Soybean"), ("ScenarioCode", "D1")] =
        .ok ⟨[], 0, [("Soybean", "D1")]⟩ :=
  ⟨(C5_amended_per_item_failures.1 (fun _ => .error "HTTP 404") ⟨[], []⟩
      ⟨1, 1, "ZEAMX", "Maize", none⟩ [] "HTTP 404" rfl).1,
   (C5_amended_per_item_failures.2.1 false ⟨[], 0, []⟩ [("CropName", "Soybean")] []
      (by decide) (by decide)).1,
   (C5_amended_per_item_failures.2.2 [] [] false ⟨[], 0, []⟩
      [("CropName", "Soybean"), ("ScenarioCode", "D1")] [] 1 rfl (by decide)).1⟩

/-! ## C7: the EPPO name comparison and the apply gate -/

/-- C7: when the API call for a stored code succeeds, a correction is queued
exactly when the extracted preferred English name (first entry with
`langiso = "en"`, `preferred = 1`) is present, non-empty, and differs
case-insensitively from the stored name; the queued entry carries that name,
the taxon scientific name, and the row id.  Queued corrections reach the
database only with the apply flag: a dry run persists the input database. -/
theorem C7_name_mismatch_queueing :
    (∀ (api : String → Except String (ApiTaxon × List ApiName)) (st : VerifySt)
        (row : EppoRow) (taxon : ApiTaxon) (names : List ApiName),
      api row.eppo_code = .ok (taxon, names) →
      (((verifyStep api st row).updates ≠ st.updates) ↔
        (∃ p, findPrefName names = some p ∧ p ≠ "" ∧ pyLower p ≠ pyLower row.eppo_name))
      ∧ (∀ p, findPrefName names = some p → p ≠ "" → pyLower p ≠ pyLower row.eppo_name →
          (verifyStep api st row).updates =
            st.updates ++ [(p, taxon.fullname.getD "", row.eppo_code_id)]))
    ∧ (∀ (api : String → Except String (ApiTaxon × List ApiName)) (hasR : Bool) (db : DB),
        (verify_codes api hasR true db).1 = db) := by
  constructor
  · intro api st row taxon names hok
    constructor
    · cases hp : findPrefName names with
      | none =>
        simp [verifyStep, hok, hp]
      | some p =>
        by_cases hcond : (p != "" && pyLower p != pyLower row.eppo_name) = true
        · have hne : p ≠ "" ∧ pyLower p ≠ pyLower row.eppo_name := by
            simpa [bne_iff_ne] using hcond
          simp only [verifyStep, hok, hp, hcond, if_true]
          constructor
          · intro _
            exact ⟨p, rfl, hne.1, hne.2⟩
          · intro _ h
            have := congrArg List.length h
            simp at this
        · have hor : p = "" ∨ pyLower p = pyLower row.eppo_name := by
            by_contra hcon
            push_neg at hcon
            exact hcond (by simp [bne_iff_ne, hcon.1, hcon.2])
          simp only [verifyStep, hok, hp, hcond, if_false]
          constructor
          · intro h
            exact absurd rfl h
          · rintro ⟨q, hq, hq1, hq2⟩
            obtain rfl : p = q := by injection hq
            exfalso
            rcases hor with h | h
            · exact hq1 h
            · exact hq2 h
    · intro p hp hne hdiff
      have hcond : (p != "" && pyLower p != pyLower row.eppo_name) = true := by
        simp [bne_iff_ne, hne, hdiff]
      simp [verifyStep, hok, hp, hcond]
  · intro api hasR db
    cases hasR with
    | false => simp [verify_codes]
    | true => simp [verify_codes]

/-! ## Idempotence of the modelled insert statements -/

section InsertLemmas

variable {α κ : Type} [DecidableEq κ] (key : α → κ)

theorem insert_or_ignore_of_contains {t : List α} {r : α}
    (h : containsKey key t (key r) = true) : insert_or_ignore key t r = t := by
  simp [insert_or_ignore, h]

theorem containsKey_insert_or_ignore_mono {t : List α} {r : α} {k : κ}
    (h : containsKey key t k = true) :
    containsKey key (insert_or_ignore key t r) k = true := by
  by_cases hc : containsKey key t (key r) = true
  · simpa [insert_or_ignore, hc] using h
  · simp only [insert_or_ignore, hc, if_false]
    simp only [containsKey, List.any_append] at h ⊢
    simp [h]

theorem containsKey_insert_or_ignore_self (t : List α) (r : α) :
    containsKey key (insert_or_ignore key t r) (key r) = true := by
  by_cases hc : containsKey key t (key r) = true
  · rw [insert_or_ignore, if_pos hc]
    exact hc
  · rw [insert_or_ignore, if_neg hc]
    simp [containsKey, List.any_append]

theorem containsKey_applyIgnores_mono {t : List α} {k : κ} (rs : List α)
    (h : containsKey key t k = true) :
    containsKey key (applyIgnores key t rs) k = true := by
  induction rs generalizing t with
  | nil => exact h
  | cons r rs ih => exact ih (containsKey_insert_or_ignore_mono key h)

theorem containsKey_applyIgnores_of_mem {t : List α} {r : α} {rs : List α}
    (h : r ∈ rs) : containsKey key (applyIgnores key t rs) (key r) = true := by
  induction rs generalizing t with
  | nil => cases h
  | cons a rs ih =>
    cases h with
    | head =>
      exact containsKey_applyIgnores_mono key rs
        (containsKey_insert_or_ignore_self key t r)
    | tail _ hmem => exact ih hmem

theorem applyIgnores_of_all_contained {t : List α} {rs : List α}
    (h : ∀ r ∈ rs, containsKey key t (key r) = true) : applyIgnores key t rs = t := by
  induction rs with
  | nil => rfl
  | cons a rs ih =>
    have ha := insert_or_ignore_of_contains key (h a (List.mem_cons_self a rs))
    show applyIgnores key (insert_or_ignore key t a) rs = t
    rw [ha]
    exact ih fun r hr => h r (List.mem_cons_of_mem a hr)

/-- A second pass of the same `INSERT OR IGNORE` batch is a no-op. -/
theorem applyIgnores_idem (t : List α) (rs : List α) :
    applyIgnores key (applyIgnores key t rs) rs = applyIgnores key t rs :=
  applyIgnores_of_all_contained key fun _ hr => containsKey_applyIgnores_of_mem key hr

/-- The survivors of a replace batch: each row whose key recurs later in the
batch is superseded. -/
def lastWins : List α → List α
  | [] => []
  | r :: rs => if containsKey key rs (key r) = true then lastWins rs else r :: lastWins rs

theorem applyReplaces_closed (t : List α) (rs : List α) :
    applyReplaces key t rs =
      t.filter (fun x => !containsKey key rs (key x)) ++ lastWins key rs := by
  induction rs generalizing t with
  | nil =>
    simp [applyReplaces, lastWins, containsKey]
  | cons r rs ih =>
    show applyReplaces key (insert_or_replace key t r) rs = _
    rw [ih]
    simp only [insert_or_replace, List.filter_append, List.filter_filter, lastWins]
    by_cases hr : containsKey key rs (key r) = true
    · simp only [hr, if_true]
      rw [List.append_assoc]
      congr 1
      · apply List.filter_congr
        intro x _
        simp only [containsKey, List.any_cons, Bool.not_or]
        by_cases hxr : key x = key r
        · simp [hxr, hr]
        · simp [hxr, Ne.symm hxr]
      · have : List.filter (fun x => !containsKey key rs (key x)) [r] = [] := by
          simp [hr]
        rw [this]
        simp
    · simp only [hr, if_false]
      rw [List.append_assoc]
      congr 1
      · apply List.filter_congr
        intro x _
        simp only [containsKey, List.any_cons, Bool.not_or]
        by_cases hxr : key x = key r
        · simp [hxr, Ne.symm]
        · simp [hxr, Ne.symm hxr]
      · have : List.filter (fun x => !containsKey key rs (key x)) [r] = [r] := by
          simp [hr]
        rw [this]
        simp

theorem containsKey_of_mem_lastWins {rs : List α} {x : α}
    (h : x ∈ lastWins key rs) : containsKey key rs (key x) = true := by
  induction rs with
  | nil => cases h
  | cons r rs ih =>
    simp only [lastWins] at h
    by_cases hr : containsKey key rs (key r) = true
    · rw [if_pos hr] at h
      have := ih h
      simp only [containsKey, List.any_cons] at this ⊢
      simp [this]
    · rw [if_neg hr] at h
      cases h with
      | head =>
        simp [containsKey, List.any_cons]
      | tail _ hmem =>
        have := ih hmem
        simp only [containsKey, List.any_cons] at this ⊢
        simp [this]

/-- A second pass of the same `INSERT OR REPLACE` batch is a no-op. -/
theorem applyReplaces_idem (t : List α) (rs : List α) :
    applyReplaces key (applyReplaces key t rs) rs = applyReplaces key t rs := by
  rw [applyReplaces_closed, applyReplaces_closed, List.filter_append,
    List.filter_filter]
  have h1 : List.filter (fun x => !containsKey key rs (key x)) (lastWins key rs) = [] := by
    rw [List.filter_eq_nil_iff]
    intro x hx
    simp [containsKey_of_mem_lastWins key hx]
  rw [h1, List.append_nil]
  congr 1
  apply List.filter_congr
  intro x _
  cases containsKey key rs (key x) <;> simp

end InsertLemmas

/-! ## C8: the interception importer -/

theorem applyReplaces_cons {α κ : Type} [DecidableEq κ] (key : α → κ)
    (t : List α) (r : α) (rs : List α) :
    applyReplaces key t (r :: rs) = applyReplaces key (insert_or_replace key t r) rs := rfl

theorem applyReplaces_append {α κ : Type} [DecidableEq κ] (key : α → κ)
    (t : List α) (xs ys : List α) :
    applyReplaces key t (xs ++ ys) = applyReplaces key (applyReplaces key t xs) ys :=
  List.foldl_append _ _ _ _

/-- Unfilled (`None`) percentages in one crop's stage list. -/
def noneCount (stages : List (Int × Option Rat × String)) : Nat :=
  stages.countP fun s => s.2.1.isNone

/-- Unfilled percentages over the whole table, matched or not. -/
def totalNoneCount (tbl_data : List (String × List (Int × Option Rat × String))) : Nat :=
  (tbl_data.map fun e => noneCount e.2).sum

/-- The rows a matched crop's filled entries upsert. -/
def stageWrites (fid : Nat) (stages : List (Int × Option Rat × String)) :
    List InterceptionRow :=
  stages.filterMap fun s => s.2.1.map fun pct => (⟨fid, s.1, pct, s.2.2⟩ : InterceptionRow)

/-- Exactly the filled entries whose crop matches a `focus_crops` row. -/
def interWritesSpec (fcs : List FocusCropRow) :
    List (String × List (Int × Option Rat × String)) → List InterceptionRow
  | [] => []
  | e :: rest =>
    (match lookupFocusCropId fcs e.1 with
      | none => []
      | some fid => stageWrites fid e.2) ++ interWritesSpec fcs rest

/-- Unfilled entries of MATCHED crops only: what the `stubbed` counter
actually counts. -/
def interStubbedSpec (fcs : List FocusCropRow) :
    List (String × List (Int × Option Rat × String)) → Nat
  | [] => 0
  | e :: rest =>
    (match lookupFocusCropId fcs e.1 with
      | none => 0
      | some _ => noneCount e.2) + interStubbedSpec fcs rest

/-- Crops with no `focus_crops` match, counted once per crop. -/
def interSkippedSpec (fcs : List FocusCropRow) :
    List (String × List (Int × Option Rat × String)) → Nat
  | [] => 0
  | e :: rest =>
    (match lookupFocusCropId fcs e.1 with
      | none => 1
      | some _ => 0) + interSkippedSpec fcs rest

theorem interStages_fold (fid : Nat) (stages : List (Int × Option Rat × String))
    (st : InterSt) :
    stages.foldl (interStageStep false fid) st =
      ⟨applyReplaces interceptKey st.tbl (stageWrites fid stages),
       st.inserted + (stageWrites fid stages).length,
       st.stubbed + noneCount stages, st.skipped⟩ := by
  induction stages generalizing st with
  | nil => simp [stageWrites, noneCount, applyReplaces]
  | cons s rest ih =>
    rw [List.foldl_cons]
    cases hp : s.2.1 with
    | none =>
      have hstep : interStageStep false fid st s = { st with stubbed := st.stubbed + 1 } := by
        simp [interStageStep, hp]
      have hw : stageWrites fid (s :: rest) = stageWrites fid rest := by
        simp [stageWrites, List.filterMap_cons, hp]
      have hn : noneCount (s :: rest) = noneCount rest + 1 := by
        simp [noneCount, List.countP_cons, hp]
      rw [hstep, ih, hw, hn]
      congr 1
      show st.stubbed + 1 + noneCount rest = st.stubbed + (noneCount rest + 1)
      omega
    | some pct =>
      have hstep : interStageStep false fid st s =
          { st with
            tbl := insert_or_replace interceptKey st.tbl ⟨fid, s.1, pct, s.2.2⟩,
            inserted := st.inserted + 1 } := by
        simp [interStageStep, hp]
      have hw : stageWrites fid (s :: rest) =
          (⟨fid, s.1, pct, s.2.2⟩ : InterceptionRow) :: stageWrites fid rest := by
        simp [stageWrites, List.filterMap_cons, hp]
      have hn : noneCount (s :: rest) = noneCount rest := by
        simp [noneCount, List.countP_cons, hp]
      rw [hstep, ih, hw, hn, applyReplaces_cons]
      simp only [List.length_cons]
      congr 1
      omega

theorem interData_fold (db : DB)
    (tbl_data : List (String × List (Int × Option Rat × String))) (st : InterSt) :
    tbl_data.foldl (interCropStep db false) st =
      ⟨applyReplaces interceptKey st.tbl (interWritesSpec db.focus_crops tbl_data),
       st.inserted + (interWritesSpec db.focus_crops tbl_data).length,
       st.stubbed + interStubbedSpec db.focus_crops tbl_data,
       st.skipped + interSkippedSpec db.focus_crops tbl_data⟩ := by
  induction tbl_data generalizing st with
  | nil => simp [interWritesSpec, interStubbedSpec, interSkippedSpec, applyReplaces]
  | cons e rest ih =>
    rw [List.foldl_cons]
    cases hl : lookupFocusCropId db.focus_crops e.1 with
    | none =>
      have hstep : interCropStep db false st e = { st with skipped := st.skipped + 1 } := by
        simp [interCropStep, hl]
      rw [hstep, ih]
      simp only [interWritesSpec, interStubbedSpec, interSkippedSpec, hl, List.nil_append,
        Nat.zero_add]
      congr 1
      omega
    | some fid =>
      have hstep : interCropStep db false st e =
          e.2.foldl (interStageStep false fid) st := by
        simp [interCropStep, hl]
      rw [hstep, interStages_fold, ih]
      simp only [interWritesSpec, interStubbedSpec, interSkippedSpec, hl,
        applyReplaces_append, List.length_append]
      congr 1 <;> omega

/-- C8 counterexample: on the shipped table (all 73 percentages are `None`
stubs) run against a database with no matching `focus_crops` rows, the
`stubbed` counter stays 0: entries of unmatched crops are skipped at the
crop level and never counted as stubbed, contradicting "counts as stubbed
every table entry whose percentage is None". -/
theorem C8_counterexample :
    (import_interception INTERCEPTION_DATA false emptyDB).2.stubbed = 0
      ∧ (import_interception INTERCEPTION_DATA false emptyDB).2.skipped = 9
      ∧ totalNoneCount INTERCEPTION_DATA = 73 := by
  refine ⟨by decide, by decide, by decide⟩

/-- C8 (amended): in apply mode the interception importer counts as stubbed
exactly the `None`-percentage entries of crops that match a `focus_crops`
row (unmatched crops are counted once each as skipped, their entries never
reach the stub counter), and upserts exactly the filled-percentage entries
of matched crops — the persisted database replaces only the
`focus_crop_interception` table, by those rows. -/
theorem C8_amended_interception
    (tbl_data : List (String × List (Int × Option Rat × String))) (db : DB) :
    import_interception tbl_data false db =
      ({ db with focus_crop_interception :=
          applyReplaces interceptKey db.focus_crop_interception (interWritesSpec db.focus_crops tbl_data) },
       ⟨applyReplaces interceptKey db.focus_crop_interception (interWritesSpec db.focus_crops tbl_data),
        (interWritesSpec db.focus_crops tbl_data).length,
        interStubbedSpec db.focus_crops tbl_data,
        interSkippedSpec db.focus_crops tbl_data⟩) := by
  unfold import_interception
  rw [interData_fold]
  simp

/-- Witness for `C7_name_mismatch_queueing`: the API returns preferred
English name `"Maize"` for a row whose stored name is `"Corn"`; the
correction is queued with the scientific name and row id. -/
theorem C7_witness :
    (verifyStep (fun _ => .ok (⟨some "Zea mays L."⟩, [⟨some "en", some 1, some "Maize"⟩]))
        ⟨[], []⟩ ⟨1, 1, "ZEAMX", "Corn", none⟩).updates = [("Maize", "Zea mays L.", 1)] :=
  (C7_name_mismatch_queueing.1
      (fun _ => .ok (⟨some "Zea mays L."⟩, [⟨some "en", some 1, some "Maize"⟩]))
      ⟨[], []⟩ ⟨1, 1, "ZEAMX", "Corn", none⟩ ⟨some "Zea mays L."⟩
      [⟨some "en", some 1, some "Maize"⟩] rfl).2
    "Maize" rfl (by decide) (by decide)

/-! ## C10: the apply phase touches only eppo_name and empty scientific_name -/

theorem nameUpd_fields (u : String × String × Nat) (e : EppoRow) :
    (nameUpd u e).eppo_code_id = e.eppo_code_id ∧ (nameUpd u e).crop_id = e.crop_id
      ∧ (nameUpd u e).eppo_code = e.eppo_code ∧ (nameUpd u e).taxon_level = e.taxon_level := by
  unfold nameUpd
  split <;> simp

theorem eppoCropOf_map_nameUpd (u : String × String × Nat) (l : List EppoRow) (n : Nat) :
    eppoCropOf (l.map (nameUpd u)) n = eppoCropOf l n := by
  induction l with
  | nil => rfl
  | cons a l ih =>
    have hid := (nameUpd_fields u a).1
    simp only [eppoCropOf, List.map_cons, List.find?_cons, hid]
    cases h : (a.eppo_code_id == n) with
    | true => simp [(nameUpd_fields u a).2.1]
    | false => exact ih

theorem applyUpdate1_eppo (db : DB) (u : String × String × Nat) :
    (applyUpdate1 db u).eppo_codes = db.eppo_codes.map (nameUpd u) := by
  unfold applyUpdate1
  by_cases h : (u.2.1 != "") = true
  · cases hm : eppoCropOf (db.eppo_codes.map (nameUpd u)) u.2.2 <;> simp [h, hm]
  · simp [h]

theorem applyUpdate1_crops_cases (db : DB) (u : String × String × Nat) :
    (applyUpdate1 db u).crops = db.crops
    ∨ ∃ cid, eppoCropOf db.eppo_codes u.2.2 = some cid ∧ u.2.1 ≠ ""
        ∧ (applyUpdate1 db u).crops = db.crops.map (sciUpd u.2.1 cid) := by
  by_cases h : (u.2.1 != "") = true
  · cases hm : eppoCropOf (db.eppo_codes.map (nameUpd u)) u.2.2 with
    | none =>
      left
      simp [applyUpdate1, h, hm]
    | some cid =>
      right
      refine ⟨cid, ?_, by simpa using h, ?_⟩
      · rw [← eppoCropOf_map_nameUpd u db.eppo_codes u.2.2]
        exact hm
      · simp [applyUpdate1, h, hm]
  · left
    simp [applyUpdate1, h]

theorem applyUpdate1_crops_length (db : DB) (u : String × String × Nat) :
    (applyUpdate1 db u).crops.length = db.crops.length := by
  rcases applyUpdate1_crops_cases db u with h | ⟨cid, _, _, h⟩ <;> simp [h]

theorem applyUpdate1_others (db : DB) (u : String × String × Nat) :
    (applyUpdate1 db u).next_crop_id = db.next_crop_id
    ∧ (applyUpdate1 db u).focus_scenarios = db.focus_scenarios
    ∧ (applyUpdate1 db u).focus_crops = db.focus_crops
    ∧ (applyUpdate1 db u).focus_crop_scenario_links = db.focus_crop_scenario_links
    ∧ (applyUpdate1 db u).focus_crop_interception = db.focus_crop_interception
    ∧ (applyUpdate1 db u).focus_sw_scenario_characteristics = db.focus_sw_scenario_characteristics
    ∧ (applyUpdate1 db u).focus_crop_scenario_irrigation = db.focus_crop_scenario_irrigation
    ∧ (applyUpdate1 db u).reg396_commodities = db.reg396_commodities
    ∧ (applyUpdate1 db u).primo_commodities = db.primo_commodities := by
  unfold applyUpdate1
  by_cases h : (u.2.1 != "") = true
  · cases hm : eppoCropOf (db.eppo_codes.map (nameUpd u)) u.2.2 <;> simp [h, hm]
  · simp [h]

theorem eppoCropOf_applyUpdate1 (db : DB) (u : String × String × Nat) (n : Nat) :
    eppoCropOf (applyUpdate1 db u).eppo_codes n = eppoCropOf db.eppo_codes n := by
  rw [applyUpdate1_eppo, eppoCropOf_map_nameUpd]

theorem sciUpd_rel (ns : String) (cid : Nat) (c : CropRow) :
    ((sciUpd ns cid c).crop_id = c.crop_id
      ∧ (sciUpd ns cid c).common_name_en = c.common_name_en
      ∧ (sciUpd ns cid c).is_food_crop = c.is_food_crop
      ∧ (sciUpd ns cid c).notes = c.notes)
    ∧ (sciUpd ns cid c = c
        ∨ ((c.scientific_name = none ∨ c.scientific_name = some "")
            ∧ (sciUpd ns cid c).scientific_name = some ns ∧ c.crop_id = cid)) := by
  unfold sciUpd
  by_cases h : (c.crop_id == cid
      && (c.scientific_name == none || c.scientific_name == some "")) = true
  · simp only [h, if_true]
    have hand := (Bool.and_eq_true _ _).mp h
    refine ⟨by simp, Or.inr ⟨?_, by simp, by simpa using hand.1⟩⟩
    rcases (Bool.or_eq_true _ _).mp hand.2 with h1 | h1
    · left
      simpa using h1
    · right
      simpa using h1
  · simp [h]

theorem applyUpdates_cons (u : String × String × Nat) (us : List (String × String × Nat))
    (db : DB) : applyUpdates (u :: us) db = applyUpdates us (applyUpdate1 db u) := rfl

theorem applyUpdates_others (us : List (String × String × Nat)) (db : DB) :
    (applyUpdates us db).next_crop_id = db.next_crop_id
    ∧ (applyUpdates us db).focus_scenarios = db.focus_scenarios
    ∧ (applyUpdates us db).focus_crops = db.focus_crops
    ∧ (applyUpdates us db).focus_crop_scenario_links = db.focus_crop_scenario_links
    ∧ (applyUpdates us db).focus_crop_interception = db.focus_crop_interception
    ∧ (applyUpdates us db).focus_sw_scenario_characteristics = db.focus_sw_scenario_characteristics
    ∧ (applyUpdates us db).focus_crop_scenario_irrigation = db.focus_crop_scenario_irrigation
    ∧ (applyUpdates us db).reg396_commodities = db.reg396_commodities
    ∧ (applyUpdates us db).primo_commodities = db.primo_commodities := by
  induction us generalizing db with
  | nil => exact ⟨rfl, rfl, rfl, rfl, rfl, rfl, rfl, rfl, rfl⟩
  | cons u us ih =>
    obtain ⟨a1, a2, a3, a4, a5, a6, a7, a8, a9⟩ := applyUpdate1_others db u
    obtain ⟨b1, b2, b3, b4, b5, b6, b7, b8, b9⟩ := ih (applyUpdate1 db u)
    rw [applyUpdates_cons]
    exact ⟨b1.trans a1, b2.trans a2, b3.trans a3, b4.trans a4, b5.trans a5,
      b6.trans a6, b7.trans a7, b8.trans a8, b9.trans a9⟩

theorem eppoCropOf_applyUpdates (us : List (String × String × Nat)) (db : DB) (n : Nat) :
    eppoCropOf (applyUpdates us db).eppo_codes n = eppoCropOf db.eppo_codes n := by
  induction us generalizing db with
  | nil => rfl
  | cons u us ih =>
    rw [applyUpdates_cons]
    exact (ih (applyUpdate1 db u)).trans (eppoCropOf_applyUpdate1 db u n)

theorem applyUpdates_eppo_frame (us : List (String × String × Nat)) (db : DB) :
    (applyUpdates us db).eppo_codes.length = db.eppo_codes.length
    ∧ ∀ (j : Nat) (e e' : EppoRow), db.eppo_codes[j]? = some e →
        (applyUpdates us db).eppo_codes[j]? = some e' →
        e'.eppo_code_id = e.eppo_code_id ∧ e'.crop_id = e.crop_id
          ∧ e'.eppo_code = e.eppo_code ∧ e'.taxon_level = e.taxon_level := by
  induction us generalizing db with
  | nil =>
    refine ⟨rfl, ?_⟩
    intro j e e' h h'
    rw [show applyUpdates [] db = db from rfl, h] at h'
    injection h' with he
    subst he
    exact ⟨rfl, rfl, rfl, rfl⟩
  | cons u us ih =>
    rw [applyUpdates_cons]
    refine ⟨?_, ?_⟩
    · rw [(ih (applyUpdate1 db u)).1, applyUpdate1_eppo]
      simp
    · intro j e e' h h'
      have hm : (applyUpdate1 db u).eppo_codes[j]? = some (nameUpd u e) := by
        rw [applyUpdate1_eppo, List.getElem?_map, h]
        rfl
      obtain ⟨c1, c2, c3, c4⟩ := (ih (applyUpdate1 db u)).2 j (nameUpd u e) e' hm h'
      obtain ⟨d1, d2, d3, d4⟩ := nameUpd_fields u e
      exact ⟨c1.trans d1, c2.trans d2, c3.trans d3, c4.trans d4⟩

theorem applyUpdates_crops_frame (us : List (String × String × Nat)) : ∀ (db : DB),
    (applyUpdates us db).crops.length = db.crops.length
    ∧ ∀ (i : Nat) (c c' : CropRow), db.crops[i]? = some c →
        (applyUpdates us db).crops[i]? = some c' →
        (c'.crop_id = c.crop_id ∧ c'.common_name_en = c.common_name_en
          ∧ c'.is_food_crop = c.is_food_crop ∧ c'.notes = c.notes)
        ∧ (c.scientific_name ≠ none → c.scientific_name ≠ some "" →
            c'.scientific_name = c.scientific_name)
        ∧ (c'.scientific_name ≠ c.scientific_name →
            (c.scientific_name = none ∨ c.scientific_name = some "")
            ∧ ∃ u ∈ us, u.2.1 ≠ "" ∧ c'.scientific_name = some u.2.1
                ∧ eppoCropOf db.eppo_codes u.2.2 = some c.crop_id) := by
  induction us with
  | nil =>
    intro db
    refine ⟨rfl, ?_⟩
    intro i c c' h h'
    rw [show applyUpdates [] db = db from rfl, h] at h'
    injection h' with he
    subst he
    exact ⟨⟨rfl, rfl, rfl, rfl⟩, fun _ _ => rfl, fun hne => absurd rfl hne⟩
  | cons u us ih =>
    intro db
    rw [applyUpdates_cons]
    refine ⟨(ih (applyUpdate1 db u)).1.trans (applyUpdate1_crops_length db u), ?_⟩
    intro i c c' h h'
    rcases applyUpdate1_crops_cases db u with hc | ⟨cid, hcid, hns, hc⟩
    · have hm : (applyUpdate1 db u).crops[i]? = some c := by
        rw [hc]
        exact h
      obtain ⟨hids, hpres, hchg⟩ := (ih (applyUpdate1 db u)).2 i c c' hm h'
      refine ⟨hids, hpres, ?_⟩
      intro hne
      obtain ⟨holdc, v, hv, hv1, hv2, hv3⟩ := hchg hne
      rw [eppoCropOf_applyUpdate1] at hv3
      exact ⟨holdc, v, List.mem_cons_of_mem u hv, hv1, hv2, hv3⟩
    · obtain ⟨hids1, hstep⟩ := sciUpd_rel u.2.1 cid c
      rcases hstep with hmc | ⟨hold, hset, hcid2⟩
      · have hm : (applyUpdate1 db u).crops[i]? = some c := by
          rw [hc, List.getElem?_map, h]
          simp [hmc]
        obtain ⟨hids, hpres, hchg⟩ := (ih (applyUpdate1 db u)).2 i c c' hm h'
        refine ⟨hids, hpres, ?_⟩
        intro hne
        obtain ⟨holdc, v, hv, hv1, hv2, hv3⟩ := hchg hne
        rw [eppoCropOf_applyUpdate1] at hv3
        exact ⟨holdc, v, List.mem_cons_of_mem u hv, hv1, hv2, hv3⟩
      · have hm : (applyUpdate1 db u).crops[i]? = some (sciUpd u.2.1 cid c) := by
          rw [hc, List.getElem?_map, h]
          rfl
        obtain ⟨hids, hpres, hchg⟩ := (ih (applyUpdate1 db u)).2 i (sciUpd u.2.1 cid c) c' hm h'
        have hmne1 : (sciUpd u.2.1 cid c).scientific_name ≠ none := by
          rw [hset]
          simp
        have hmne2 : (sciUpd u.2.1 cid c).scientific_name ≠ some "" := by
          rw [hset]
          intro hx
          injection hx with hx2
          exact hns hx2
        have hcm : c'.scientific_name = (sciUpd u.2.1 cid c).scientific_name :=
          hpres hmne1 hmne2
        refine ⟨⟨hids.1.trans hids1.1, hids.2.1.trans hids1.2.1,
          hids.2.2.1.trans hids1.2.2.1, hids.2.2.2.trans hids1.2.2.2⟩, ?_, ?_⟩
        · intro hn1 hn2
          rcases hold with h0 | h0
          · exact absurd h0 hn1
          · exact absurd h0 hn2
        · intro _
          refine ⟨hold, u, List.mem_cons_self u us, hns, ?_, ?_⟩
          · rw [hcm, hset]
          · rw [hcid]
            exact congrArg some hcid2.symm

/-- C10: applying queued corrections preserves every table except
`eppo_codes` and `crops`; in `eppo_codes` only `eppo_name` can change; in
`crops` only `scientific_name` can change, it is changed only when the
previous value was NULL or empty, only to a queued non-empty scientific
name whose update is linked (via the eppo_code_id subquery) to that very
crop row, and a non-empty existing scientific name is never overwritten.
The apply branch of `verify_codes` is exactly `applyUpdates` of the queued
updates. -/
theorem C10_apply_updates_frame (us : List (String × String × Nat)) (db : DB) :
    ((applyUpdates us db).crops.length = db.crops.length
      ∧ ∀ (i : Nat) (c c' : CropRow), db.crops[i]? = some c →
          (applyUpdates us db).crops[i]? = some c' →
          (c'.crop_id = c.crop_id ∧ c'.common_name_en = c.common_name_en
            ∧ c'.is_food_crop = c.is_food_crop ∧ c'.notes = c.notes)
          ∧ (c.scientific_name ≠ none → c.scientific_name ≠ some "" →
              c'.scientific_name = c.scientific_name)
          ∧ (c'.scientific_name ≠ c.scientific_name →
              (c.scientific_name = none ∨ c.scientific_name = some "")
              ∧ ∃ u ∈ us, u.2.1 ≠ "" ∧ c'.scientific_name = some u.2.1
                  ∧ eppoCropOf db.eppo_codes u.2.2 = some c.crop_id))
    ∧ ((applyUpdates us db).eppo_codes.length = db.eppo_codes.length
      ∧ ∀ (j : Nat) (e e' : EppoRow), db.eppo_codes[j]? = some e →
          (applyUpdates us db).eppo_codes[j]? = some e' →
          e'.eppo_code_id = e.eppo_code_id ∧ e'.crop_id = e.crop_id
            ∧ e'.eppo_code = e.eppo_code ∧ e'.taxon_level = e.taxon_level)
    ∧ ((applyUpdates us db).next_crop_id = db.next_crop_id
      ∧ (applyUpdates us db).focus_scenarios = db.focus_scenarios
      ∧ (applyUpdates us db).focus_crops = db.focus_crops
      ∧ (applyUpdates us db).focus_crop_scenario_links = db.focus_crop_scenario_links
      ∧ (applyUpdates us db).focus_crop_interception = db.focus_crop_interception
      ∧ (applyUpdates us db).focus_sw_scenario_characteristics
          = db.focus_sw_scenario_characteristics
      ∧ (applyUpdates us db).focus_crop_scenario_irrigation
          = db.focus_crop_scenario_irrigation
      ∧ (applyUpdates us db).reg396_commodities = db.reg396_commodities
      ∧ (applyUpdates us db).primo_commodities = db.primo_commodities)
    ∧ (∀ (api : String → Except String (ApiTaxon × List ApiName)) (d : DB),
        (verify_codes api true false d).1 =
          applyUpdates ((verifyRows d).foldl (verifyStep api) ⟨[], []⟩).updates d) := by
  refine ⟨applyUpdates_crops_frame us db, applyUpdates_eppo_frame us db,
    applyUpdates_others us db, ?_⟩
  intro api d
  unfold verify_codes
  by_cases hemp : ((verifyRows d).foldl (verifyStep api) ⟨[], []⟩).updates.isEmpty
  · have hnil : ((verifyRows d).foldl (verifyStep api) ⟨[], []⟩).updates = [] :=
      List.isEmpty_iff.mp hemp
    simp [hemp, hnil, applyUpdates]
  · simp [hemp]

/-- Concrete database and update queue for the C10 witness: crop 1 already
has a scientific name, crop 2 has none. -/
def frameDB : DB :=
  { emptyDB with
    crops := [⟨1, "Maize", some "Zea mays", 1, none⟩, ⟨2, "Vine", none, 1, none⟩],
    eppo_codes := [⟨1, 1, "ZEAMX", "Maize", none⟩, ⟨2, 2, "VITVI", "Vine", none⟩] }

def frameUpdates : List (String × String × Nat) :=
  [("Maize upd", "Zea mays L.", 1), ("Vine upd", "Vitis vinifera", 2)]

/-- Witness for `C10_apply_updates_frame`: the already-filled scientific
name of crop 1 survives the apply phase unchanged. -/
theorem C10_witness :
    ∃ c' : CropRow, (applyUpdates frameUpdates frameDB).crops[0]? = some c'
      ∧ c'.scientific_name = some "Zea mays" := by
  have hnew : (applyUpdates frameUpdates frameDB).crops[0]? =
      some ⟨1, "Maize", some "Zea mays", 1, none⟩ := by decide
  refine ⟨_, hnew, ?_⟩
  exact ((C10_apply_updates_frame frameUpdates frameDB).1.2 0
      ⟨1, "Maize", some "Zea mays", 1, none⟩
      ⟨1, "Maize", some "Zea mays", 1, none⟩ (by decide) hnew).2.1
    (by decide) (by decide)

/-! ## C2: idempotence of a second apply run -/

/-- The upsert list of the characteristics importer: one row per record with
a non-empty code and a matching surface-water scenario. -/
def charWrites (ss : List ScenarioRow) : List CharRec → List SwCharRow
  | [] => []
  | s :: rest =>
    (if (pyStrip (s.scenario_code.getD "") == "") = true then []
     else
       match lookupSwScenarioId ss (pyStrip (s.scenario_code.getD "")) with
       | none => []
       | some sid => [charRowOf sid (pyStrip (s.scenario_code.getD "")) s])
      ++ charWrites ss rest

/-- The skip lines of the characteristics importer. -/
def charSkips (ss : List ScenarioRow) : List CharRec → List String
  | [] => []
  | s :: rest =>
    (if (pyStrip (s.scenario_code.getD "") == "") = true then []
     else
       match lookupSwScenarioId ss (pyStrip (s.scenario_code.getD "")) with
       | none => ["  Skip scenario " ++ pyStrip (s.scenario_code.getD "") ++
                    ": not found in focus_scenarios (surface water)"]
       | some _ => [])
      ++ charSkips ss rest

theorem char_fold (db : DB) (scs : List CharRec) : ∀ st : CharSt,
    scs.foldl (charStep db false) st =
      ⟨applyReplaces swCharKey st.tbl (charWrites db.focus_scenarios scs),
       st.updated + (charWrites db.focus_scenarios scs).length,
       st.skippedMsgs ++ charSkips db.focus_scenarios scs⟩ := by
  induction scs with
  | nil =>
    intro st
    simp [charWrites, charSkips, applyReplaces]
  | cons s rest ih =>
    intro st
    rw [List.foldl_cons]
    by_cases hc : (pyStrip (s.scenario_code.getD "") == "") = true
    · have hstep : charStep db false st s = st := by
        simp [charStep, hc]
      rw [hstep, ih]
      simp [charWrites, charSkips, hc]
    · cases hl : lookupSwScenarioId db.focus_scenarios (pyStrip (s.scenario_code.getD "")) with
      | none =>
        have hstep : charStep db false st s =
            { st with skippedMsgs := st.skippedMsgs ++
                ["  Skip scenario " ++ pyStrip (s.scenario_code.getD "") ++
                  ": not found in focus_scenarios (surface water)"] } := by
          simp [charStep, hc, hl]
        have hw : charWrites db.focus_scenarios (s :: rest)
            = charWrites db.focus_scenarios rest := by
          simp [charWrites, hc, hl]
        have hs : charSkips db.focus_scenarios (s :: rest) =
            ("  Skip scenario " ++ pyStrip (s.scenario_code.getD "") ++
              ": not found in focus_scenarios (surface water)")
              :: charSkips db.focus_scenarios rest := by
          simp [charSkips, hc, hl]
        rw [hstep, ih, hw, hs]
        congr 1
        simp
      | some sid =>
        have hstep : charStep db false st s =
            { st with
              tbl := insert_or_replace swCharKey st.tbl
                (charRowOf sid (pyStrip (s.scenario_code.getD "")) s),
              updated := st.updated + 1 } := by
          simp [charStep, hc, hl]
        have hw : charWrites db.focus_scenarios (s :: rest) =
            charRowOf sid (pyStrip (s.scenario_code.getD "")) s
              :: charWrites db.focus_scenarios rest := by
          simp [charWrites, hc, hl]
        have hs : charSkips db.focus_scenarios (s :: rest)
            = charSkips db.focus_scenarios rest := by
          simp [charSkips, hc, hl]
        rw [hstep, ih, hw, hs, applyReplaces_cons]
        congr 1
        simp only [List.length_cons]
        omega

theorem import_characteristics_persisted (scs : List CharRec) (db : DB)
    (hemp : ¬ scs.isEmpty = true) :
    (import_characteristics scs false db).1 =
      { db with focus_sw_scenario_characteristics :=
          (applyReplaces swCharKey db.focus_sw_scenario_characteristics
            (charWrites db.focus_scenarios scs)) } := by
  simp only [import_characteristics, hemp, Bool.false_eq_true, if_false]
  rw [char_fold]

/-- Run the characteristics importer twice in apply mode: same persisted
database as once. -/
theorem char_idem (scs : List CharRec) (db : DB) :
    (import_characteristics scs false (import_characteristics scs false db).1).1
      = (import_characteristics scs false db).1 := by
  by_cases hemp : scs.isEmpty = true
  · simp [import_characteristics, hemp]
  · rw [import_characteristics_persisted scs db hemp,
      import_characteristics_persisted scs _ hemp]
    congr 1
    exact applyReplaces_idem swCharKey db.focus_sw_scenario_characteristics
      (charWrites db.focus_scenarios scs)

/-- The upsert list of the irrigation importer. -/
def irrWrites (ss : List ScenarioRow) (fcs : List FocusCropRow) : List IrrRec → List IrrRow
  | [] => []
  | r :: rest =>
    (match r.irrigation_mm_annual with
     | none => []
     | some mm =>
       if (pyStrip (r.scenario_code.getD "") == "" || pyStrip (r.crop.getD "") == "") = true
       then []
       else
         match lookupSwScenarioId ss (pyStrip (r.scenario_code.getD "")),
             lookupFocusCropId fcs (pyStrip (r.crop.getD "")) with
         | some sid, some fid => [⟨fid, sid, mm, SOURCE_REF⟩]
         | none, _ => []
         | some _, none => [])
      ++ irrWrites ss fcs rest

/-- The skip list of the irrigation importer. -/
def irrSkips (ss : List ScenarioRow) (fcs : List FocusCropRow) :
    List IrrRec → List (String × String)
  | [] => []
  | r :: rest =>
    (match r.irrigation_mm_annual with
     | none => []
     | some _ =>
       if (pyStrip (r.scenario_code.getD "") == "" || pyStrip (r.crop.getD "") == "") = true
       then []
       else
         match lookupSwScenarioId ss (pyStrip (r.scenario_code.getD "")),
             lookupFocusCropId fcs (pyStrip (r.crop.getD "")) with
         | some _, some _ => []
         | none, _ => [(pyStrip (r.scenario_code.getD ""), pyStrip (r.crop.getD ""))]
         | some _, none => [(pyStrip (r.scenario_code.getD ""), pyStrip (r.crop.getD ""))])
      ++ irrSkips ss fcs rest

theorem irr_fold (db : DB) (rows : List IrrRec) : ∀ st : IrrSt,
    rows.foldl (irrStep db false) st =
      ⟨applyReplaces irrKey st.tbl (irrWrites db.focus_scenarios db.focus_crops rows),
       st.inserted + (irrWrites db.focus_scenarios db.focus_crops rows).length,
       st.skipped ++ irrSkips db.focus_scenarios db.focus_crops rows⟩ := by
  induction rows with
  | nil =>
    intro st
    simp [irrWrites, irrSkips, applyReplaces]
  | cons r rest ih =>
    intro st
    rw [List.foldl_cons]
    cases hmm : r.irrigation_mm_annual with
    | none =>
      have hstep : irrStep db false st r = st := by
        simp [irrStep, hmm]
      have hw : irrWrites db.focus_scenarios db.focus_crops (r :: rest)
          = irrWrites db.focus_scenarios db.focus_crops rest := by
        simp [irrWrites, hmm]
      have hs : irrSkips db.focus_scenarios db.focus_crops (r :: rest)
          = irrSkips db.focus_scenarios db.focus_crops rest := by
        simp [irrSkips, hmm]
      rw [hstep, ih, hw, hs]
    | some mm =>
      by_cases hg : (pyStrip (r.scenario_code.getD "") == ""
          || pyStrip (r.crop.getD "") == "") = true
      · have hstep : irrStep db false st r = st := by
          simp only [irrStep, hmm]
          rw [if_pos hg]
        have hw : irrWrites db.focus_scenarios db.focus_crops (r :: rest)
            = irrWrites db.focus_scenarios db.focus_crops rest := by
          simp only [irrWrites, hmm]
          rw [if_pos hg, List.nil_append]
        have hs : irrSkips db.focus_scenarios db.focus_crops (r :: rest)
            = irrSkips db.focus_scenarios db.focus_crops rest := by
          simp only [irrSkips, hmm]
          rw [if_pos hg, List.nil_append]
        rw [hstep, ih, hw, hs]
      · cases hsc : lookupSwScenarioId db.focus_scenarios (pyStrip (r.scenario_code.getD "")) with
        | none =>
          have hstep : irrStep db false st r =
              { st with skipped := st.skipped ++
                  [(pyStrip (r.scenario_code.getD ""), pyStrip (r.crop.getD ""))] } := by
            simp only [irrStep, hmm]
            rw [if_neg hg]
            simp [hsc]
          have hw : irrWrites db.focus_scenarios db.focus_crops (r :: rest)
              = irrWrites db.focus_scenarios db.focus_crops rest := by
            simp only [irrWrites, hmm]
            rw [if_neg hg]
            simp [hsc]
          have hs : irrSkips db.focus_scenarios db.focus_crops (r :: rest) =
              (pyStrip (r.scenario_code.getD ""), pyStrip (r.crop.getD ""))
                :: irrSkips db.focus_scenarios db.focus_crops rest := by
            simp only [irrSkips, hmm]
            rw [if_neg hg]
            simp [hsc]
          rw [hstep, ih, hw, hs]
          congr 1
          simp
        | some sid =>
          cases hfc : lookupFocusCropId db.focus_crops (pyStrip (r.crop.getD "")) with
          | none =>
            have hstep : irrStep db false st r =
                { st with skipped := st.skipped ++
                    [(pyStrip (r.scenario_code.getD ""), pyStrip (r.crop.getD ""))] } := by
              simp only [irrStep, hmm]
              rw [if_neg hg]
              simp [hsc, hfc]
            have hw : irrWrites db.focus_scenarios db.focus_crops (r :: rest)
                = irrWrites db.focus_scenarios db.focus_crops rest := by
              simp only [irrWrites, hmm]
              rw [if_neg hg]
              simp [hsc, hfc]
            have hs : irrSkips db.focus_scenarios db.focus_crops (r :: rest) =
                (pyStrip (r.scenario_code.getD ""), pyStrip (r.crop.getD ""))
                  :: irrSkips db.focus_scenarios db.focus_crops rest := by
              simp only [irrSkips, hmm]
              rw [if_neg hg]
              simp [hsc, hfc]
            rw [hstep, ih, hw, hs]
            congr 1
            simp
          | some fid =>
            have hstep : irrStep db false st r =
                { st with
                  tbl := insert_or_replace irrKey st.tbl ⟨fid, sid, mm, SOURCE_REF⟩,
                  inserted := st.inserted + 1 } := by
              simp only [irrStep, hmm]
              rw [if_neg hg]
              simp [hsc, hfc]
            have hw : irrWrites db.focus_scenarios db.focus_crops (r :: rest) =
                (⟨fid, sid, mm, SOURCE_REF⟩ : IrrRow)
                  :: irrWrites db.focus_scenarios db.focus_crops rest := by
              simp only [irrWrites, hmm]
              rw [if_neg hg]
              simp [hsc, hfc]
            have hs : irrSkips db.focus_scenarios db.focus_crops (r :: rest)
                = irrSkips db.focus_scenarios db.focus_crops rest := by
              simp only [irrSkips, hmm]
              rw [if_neg hg]
              simp [hsc, hfc]
            rw [hstep, ih, hw, hs, applyReplaces_cons]
            congr 1
            simp only [List.length_cons]
            omega

theorem import_irrigation_persisted (rows : List IrrRec) (db : DB)
    (hemp : ¬ rows.isEmpty = true) :
    (import_irrigation rows false db).1 =
      { db with focus_crop_scenario_irrigation :=
          (applyReplaces irrKey db.focus_crop_scenario_irrigation
            (irrWrites db.focus_scenarios db.focus_crops rows)) } := by
  simp only [import_irrigation, hemp, Bool.false_eq_true, if_false]
  rw [irr_fold]

/-- Run the irrigation importer twice in apply mode: same persisted
database as once. -/
theorem irr_idem (rows : List IrrRec) (db : DB) :
    (import_irrigation rows false (import_irrigation rows false db).1).1
      = (import_irrigation rows false db).1 := by
  by_cases hemp : rows.isEmpty = true
  · simp [import_irrigation, hemp]
  · rw [import_irrigation_persisted rows db hemp,
      import_irrigation_persisted rows _ hemp]
    congr 1
    exact applyReplaces_idem irrKey db.focus_crop_scenario_irrigation
      (irrWrites db.focus_scenarios db.focus_crops rows)

theorem applyIgnores_cons {α κ : Type} [DecidableEq κ] (key : α → κ)
    (t : List α) (r : α) (rs : List α) :
    applyIgnores key t (r :: rs) = applyIgnores key (insert_or_ignore key t r) rs := rfl

theorem applyIgnores_append {α κ : Type} [DecidableEq κ] (key : α → κ)
    (t : List α) (xs ys : List α) :
    applyIgnores key t (xs ++ ys) = applyIgnores key (applyIgnores key t xs) ys :=
  List.foldl_append _ _ _ _

/-- The insert list of one matched crop's scenario codes in the JSON links
importer. -/
def scenWrites (ss : List ScenarioRow) (fid : Nat) : List String → List LinkRow
  | [] => []
  | sc :: rest =>
    (match lookupScenarioId ss (pyStrip sc) with
     | none => []
     | some sid => [⟨fid, sid, none, 1⟩]) ++ scenWrites ss fid rest

/-- The skip entries of one matched crop's scenario codes. -/
def scenSkips (ss : List ScenarioRow) (crop_name : String) :
    List String → List (String × Option String)
  | [] => []
  | sc :: rest =>
    (match lookupScenarioId ss (pyStrip sc) with
     | none => [(crop_name, some sc)]
     | some _ => []) ++ scenSkips ss crop_name rest

/-- The insert list of the JSON links importer. -/
def linkWrites (fcs : List FocusCropRow) (ss : List ScenarioRow) : List LinkRec → List LinkRow
  | [] => []
  | row :: rest =>
    (if (pyStrip (row.crop.getD "") == "" || !row.scenarios.truthy) = true then []
     else
       match lookupFocusCropId fcs (pyStrip (row.crop.getD "")) with
       | none => []
       | some fid => scenWrites ss fid (scenListOf row.scenarios))
      ++ linkWrites fcs ss rest

/-- The skip entries of the JSON links importer. -/
def linkSkips (fcs : List FocusCropRow) (ss : List ScenarioRow) :
    List LinkRec → List (String × Option String)
  | [] => []
  | row :: rest =>
    (if (pyStrip (row.crop.getD "") == "" || !row.scenarios.truthy) = true then []
     else
       match lookupFocusCropId fcs (pyStrip (row.crop.getD "")) with
       | none => [(pyStrip (row.crop.getD ""), none)]
       | some _ => scenSkips ss (pyStrip (row.crop.getD "")) (scenListOf row.scenarios))
      ++ linkSkips fcs ss rest

theorem linkScen_fold (db : DB) (crop_name : String) (fid : Nat) (codes : List String) :
    ∀ st : LinksSt,
    codes.foldl (linkScenStep db false crop_name fid) st =
      ⟨applyIgnores linkKey st.tbl (scenWrites db.focus_scenarios fid codes),
       st.inserted + (scenWrites db.focus_scenarios fid codes).length,
       st.skipped ++ scenSkips db.focus_scenarios crop_name codes⟩ := by
  induction codes with
  | nil =>
    intro st
    simp [scenWrites, scenSkips, applyIgnores]
  | cons sc rest ih =>
    intro st
    rw [List.foldl_cons]
    cases hl : lookupScenarioId db.focus_scenarios (pyStrip sc) with
    | none =>
      have hstep : linkScenStep db false crop_name fid st sc =
          { st with skipped := st.skipped ++ [(crop_name, some sc)] } := by
        simp [linkScenStep, hl]
      have hw : scenWrites db.focus_scenarios fid (sc :: rest)
          = scenWrites db.focus_scenarios fid rest := by
        simp [scenWrites, hl]
      have hs : scenSkips db.focus_scenarios crop_name (sc :: rest)
          = (crop_name, some sc) :: scenSkips db.focus_scenarios crop_name rest := by
        simp [scenSkips, hl]
      rw [hstep, ih, hw, hs]
      congr 1
      simp
    | some sid =>
      have hstep : linkScenStep db false crop_name fid st sc =
          { st with
            tbl := insert_or_ignore linkKey st.tbl ⟨fid, sid, none, 1⟩,
            inserted := st.inserted + 1 } := by
        simp [linkScenStep, hl]
      have hw : scenWrites db.focus_scenarios fid (sc :: rest) =
          (⟨fid, sid, none, 1⟩ : LinkRow) :: scenWrites db.focus_scenarios fid rest := by
        simp [scenWrites, hl]
      have hs : scenSkips db.focus_scenarios crop_name (sc :: rest)
          = scenSkips db.focus_scenarios crop_name rest := by
        simp [scenSkips, hl]
      rw [hstep, ih, hw, hs, applyIgnores_cons]
      congr 1
      simp only [List.length_cons]
      omega

theorem linkItems_fold (db : DB) (items : List LinkRec) : ∀ st : LinksSt,
    items.foldl (linkItemStep db false) st =
      ⟨applyIgnores linkKey st.tbl (linkWrites db.focus_crops db.focus_scenarios items),
       st.inserted + (linkWrites db.focus_crops db.focus_scenarios items).length,
       st.skipped ++ linkSkips db.focus_crops db.focus_scenarios items⟩ := by
  induction items with
  | nil =>
    intro st
    simp [linkWrites, linkSkips, applyIgnores]
  | cons row rest ih =>
    intro st
    rw [List.foldl_cons]
    by_cases hg : (pyStrip (row.crop.getD "") == "" || !row.scenarios.truthy) = true
    · have hstep : linkItemStep db false st row = st := by
        simp only [linkItemStep]
        rw [if_pos hg]
      have hw : linkWrites db.focus_crops db.focus_scenarios (row :: rest)
          = linkWrites db.focus_crops db.focus_scenarios rest := by
        simp only [linkWrites]
        rw [if_pos hg, List.nil_append]
      have hs : linkSkips db.focus_crops db.focus_scenarios (row :: rest)
          = linkSkips db.focus_crops db.focus_scenarios rest := by
        simp only [linkSkips]
        rw [if_pos hg, List.nil_append]
      rw [hstep, ih, hw, hs]
    · cases hl : lookupFocusCropId db.focus_crops (pyStrip (row.crop.getD "")) with
      | none =>
        have hstep : linkItemStep db false st row =
            { st with skipped := st.skipped ++ [(pyStrip (row.crop.getD ""), none)] } := by
          simp only [linkItemStep]
          rw [if_neg hg]
          simp [hl]
        have hw : linkWrites db.focus_crops db.focus_scenarios (row :: rest)
            = linkWrites db.focus_crops db.focus_scenarios rest := by
          simp only [linkWrites]
          rw [if_neg hg]
          simp [hl]
        have hs : linkSkips db.focus_crops db.focus_scenarios (row :: rest) =
            (pyStrip (row.crop.getD ""), none)
              :: linkSkips db.focus_crops db.focus_scenarios rest := by
          simp only [linkSkips]
          rw [if_neg hg]
          simp [hl]
        rw [hstep, ih, hw, hs]
        congr 1
        simp
      | some fid =>
        have hstep : linkItemStep db false st row =
            (scenListOf row.scenarios).foldl
              (linkScenStep db false (pyStrip (row.crop.getD "")) fid) st := by
          simp only [linkItemStep]
          rw [if_neg hg]
          simp [hl]
        have hw : linkWrites db.focus_crops db.focus_scenarios (row :: rest) =
            scenWrites db.focus_scenarios fid (scenListOf row.scenarios)
              ++ linkWrites db.focus_crops db.focus_scenarios rest := by
          simp only [linkWrites]
          rw [if_neg hg]
          simp [hl]
        have hs : linkSkips db.focus_crops db.focus_scenarios (row :: rest) =
            scenSkips db.focus_scenarios (pyStrip (row.crop.getD "")) (scenListOf row.scenarios)
              ++ linkSkips db.focus_crops db.focus_scenarios rest := by
          simp only [linkSkips]
          rw [if_neg hg]
          simp [hl]
        rw [hstep, linkScen_fold, ih, hw, hs, applyIgnores_append]
        congr 1
        · simp only [List.length_append]
          omega
        · simp [List.append_assoc]

theorem import_links_persisted (items : List LinkRec) (db : DB)
    (hemp : ¬ items.isEmpty = true) :
    (import_links items false db).1 =
      { db with focus_crop_scenario_links :=
          (applyIgnores linkKey db.focus_crop_scenario_links
            (linkWrites db.focus_crops db.focus_scenarios items)) } := by
  simp only [import_links, hemp, Bool.false_eq_true, if_false]
  rw [linkItems_fold]

/-- Run the JSON links importer twice in apply mode: same persisted database
as once. -/
theorem links_idem (items : List LinkRec) (db : DB) :
    (import_links items false (import_links items false db).1).1
      = (import_links items false db).1 := by
  by_cases hemp : items.isEmpty = true
  · simp [import_links, hemp]
  · rw [import_links_persisted items db hemp, import_links_persisted items _ hemp]
    congr 1
    exact applyIgnores_idem linkKey db.focus_crop_scenario_links
      (linkWrites db.focus_crops db.focus_scenarios items)

theorem import_interception_persisted
    (tbl_data : List (String × List (Int × Option Rat × String))) (db : DB) :
    (import_interception tbl_data false db).1 =
      { db with focus_crop_interception :=
          (applyReplaces interceptKey db.focus_crop_interception
            (interWritesSpec db.focus_crops tbl_data)) } := by
  unfold import_interception
  rw [interData_fold]
  simp

/-- Run the interception importer twice in apply mode: same persisted
database as once. -/
theorem inter_idem (tbl_data : List (String × List (Int × Option Rat × String))) (db : DB) :
    (import_interception tbl_data false (import_interception tbl_data false db).1).1
      = (import_interception tbl_data false db).1 := by
  rw [import_interception_persisted tbl_data db, import_interception_persisted tbl_data _]
  congr 1
  exact applyReplaces_idem interceptKey db.focus_crop_interception
    (interWritesSpec db.focus_crops tbl_data)

theorem find?_append_of_none {α : Type} {p : α → Bool} {l1 l2 : List α}
    (h : l1.find? p = none) : (l1 ++ l2).find? p = l2.find? p := by
  induction l1 with
  | nil => rfl
  | cons a l ih =>
    rw [List.find?_cons] at h
    rw [List.cons_append, List.find?_cons]
    cases hp : p a with
    | true =>
      rw [hp] at h
      cases h
    | false =>
      rw [hp] at h
      exact ih h

/-- After `ensureUnknownCrop`, the placeholder crop is present and carries
the returned id: a second run finds it instead of inserting again. -/
theorem ensure_finds (db : DB) :
    ∃ c, findCropByName (ensureUnknownCrop db).1.crops "Unknown (unmapped)" = some c
      ∧ c.crop_id = (ensureUnknownCrop db).2 := by
  unfold ensureUnknownCrop
  cases hf : findCropByName db.crops "Unknown (unmapped)" with
  | some c => exact ⟨c, hf, rfl⟩
  | none =>
    refine ⟨⟨db.next_crop_id, "Unknown (unmapped)", none, 0, some unknownCropNotes⟩, ?_, rfl⟩
    show findCropByName
      (db.crops ++ [⟨db.next_crop_id, "Unknown (unmapped)", none, 0, some unknownCropNotes⟩])
      "Unknown (unmapped)" = _
    unfold findCropByName at hf ⊢
    rw [find?_append_of_none hf]
    simp

theorem ensure_of_crops_eq (db X : DB) (h : X.crops = (ensureUnknownCrop db).1.crops) :
    ensureUnknownCrop X = (X, (ensureUnknownCrop db).2) := by
  obtain ⟨c, hf, hc⟩ := ensure_finds db
  have hfx : findCropByName X.crops "Unknown (unmapped)" = some c := by
    rw [h]
    exact hf
  have hx : ensureUnknownCrop X = (X, c.crop_id) := by
    unfold ensureUnknownCrop
    rw [hfx]
  rw [hx, hc]

/-- Run the PRIMo importer twice in apply mode: same persisted database as
once. -/
theorem primo_idem (hasO : Bool) (wb : Option Workbook) (ver : String) (db : DB) :
    (import_primo hasO wb false ver (import_primo hasO wb false ver db).1).1
      = (import_primo hasO wb false ver db).1 := by
  cases hasO with
  | false => rfl
  | true =>
    cases wb with
    | none => rfl
    | some sheets =>
      cases hsh : lookupSheet sheets SHEET_COMMODITY with
      | none =>
        have h1 : import_primo true (some sheets) false ver db =
            (db, some "Adjust SHEET_COMMODITY constant.") := by
          simp [import_primo, hsh]
        simp [h1]
      | some ws =>
        cases hp : parsePrimoRows (ensureUnknownCrop db).2 ver (ws.drop HEADER_ROWS) with
        | error e =>
          have h1 : import_primo true (some sheets) false ver db = (db, some e) := by
            simp [import_primo, hsh, hp]
          simp [h1]
        | ok rp =>
          obtain ⟨regs, primos⟩ := rp
          have h1 : import_primo true (some sheets) false ver db =
              ({ (ensureUnknownCrop db).1 with
                  reg396_commodities :=
                    (applyIgnores reg396Key (ensureUnknownCrop db).1.reg396_commodities regs),
                  primo_commodities :=
                    (applyIgnores primoKey (ensureUnknownCrop db).1.primo_commodities primos) },
               none) := by
            simp [import_primo, hsh, hp]
          rw [h1]
          have hens : ensureUnknownCrop
              { (ensureUnknownCrop db).1 with
                reg396_commodities :=
                  (applyIgnores reg396Key (ensureUnknownCrop db).1.reg396_commodities regs),
                primo_commodities :=
                  (applyIgnores primoKey (ensureUnknownCrop db).1.primo_commodities primos) } =
              ({ (ensureUnknownCrop db).1 with
                reg396_commodities :=
                  (applyIgnores reg396Key (ensureUnknownCrop db).1.reg396_commodities regs),
                primo_commodities :=
                  (applyIgnores primoKey (ensureUnknownCrop db).1.primo_commodities primos) },
               (ensureUnknownCrop db).2) :=
            ensure_of_crops_eq db _ rfl
          simp [import_primo, hsh, hens, hp, applyIgnores_idem]

attribute [ext] FocusCropRow

/-- One `(focus_crop_id, updates)` pair applied to one row. -/
def rowApply1 (r : FocusCropRow) (u : Nat × CropPatch) : FocusCropRow :=
  if r.focus_crop_id == u.1 then applyPatch r u.2 else r

/-- The crop-parameter UPDATEs of a run, in order. -/
def applyRowPatches (tbl : List FocusCropRow) (ps : List (Nat × CropPatch)) :
    List FocusCropRow :=
  ps.foldl (fun t u => updateFocusCrops t u.1 u.2) tbl

theorem applyRowPatches_map (ps : List (Nat × CropPatch)) : ∀ tbl : List FocusCropRow,
    applyRowPatches tbl ps = tbl.map fun r => ps.foldl rowApply1 r := by
  induction ps with
  | nil =>
    intro tbl
    simp [applyRowPatches]
  | cons u ps ih =>
    intro tbl
    show applyRowPatches (updateFocusCrops tbl u.1 u.2) ps = _
    rw [ih, show updateFocusCrops tbl u.1 u.2 = tbl.map (fun r => rowApply1 r u) from rfl,
      List.map_map]
    congr 1

theorem rowApply1_id (r : FocusCropRow) (u : Nat × CropPatch) :
    (rowApply1 r u).focus_crop_id = r.focus_crop_id := by
  unfold rowApply1
  split <;> rfl

theorem rowApply1_name (r : FocusCropRow) (u : Nat × CropPatch) :
    (rowApply1 r u).swash_crop_name = r.swash_crop_name := by
  unfold rowApply1
  split <;> rfl

theorem perRow_id (ps : List (Nat × CropPatch)) : ∀ r : FocusCropRow,
    (ps.foldl rowApply1 r).focus_crop_id = r.focus_crop_id := by
  induction ps with
  | nil => intro r; rfl
  | cons u ps ih =>
    intro r
    rw [List.foldl_cons, ih, rowApply1_id]

theorem perRow_name (ps : List (Nat × CropPatch)) : ∀ r : FocusCropRow,
    (ps.foldl rowApply1 r).swash_crop_name = r.swash_crop_name := by
  induction ps with
  | nil => intro r; rfl
  | cons u ps ih =>
    intro r
    rw [List.foldl_cons, ih, rowApply1_name]

/-- The per-field residue of a patch sequence on one row: each step either
overwrites the field (when the id matches and the patch sets it) or leaves
it. -/
def fieldFold {β : Type} (pid : Nat) (sel : CropPatch → Option β)
    (ps : List (Nat × CropPatch)) (c : Option β) : Option β :=
  ps.foldl (fun c u => if pid == u.1 then ov (sel u.2) c else c) c

theorem fieldFold_cons {β : Type} (pid : Nat) (sel : CropPatch → Option β)
    (u : Nat × CropPatch) (ps : List (Nat × CropPatch)) (c : Option β) :
    fieldFold pid sel (u :: ps) c =
      fieldFold pid sel ps (if pid == u.1 then ov (sel u.2) c else c) := rfl

theorem perRow_field {β : Type} (getF : FocusCropRow → Option β)
    (sel : CropPatch → Option β)
    (hgf : ∀ (r : FocusCropRow) (p : CropPatch), getF (applyPatch r p) = ov (sel p) (getF r))
    (ps : List (Nat × CropPatch)) : ∀ r : FocusCropRow,
    getF (ps.foldl rowApply1 r) = fieldFold r.focus_crop_id sel ps (getF r) := by
  induction ps with
  | nil => intro r; rfl
  | cons u ps ih =>
    intro r
    rw [List.foldl_cons, ih, rowApply1_id, fieldFold_cons]
    congr 1
    unfold rowApply1
    by_cases h : (r.focus_crop_id == u.1) = true
    · rw [if_pos h, if_pos h, hgf]
    · rw [if_neg h, if_neg h]

theorem fieldFold_idem {β : Type} (pid : Nat) (sel : CropPatch → Option β)
    (ps : List (Nat × CropPatch)) : ∀ c : Option β,
    fieldFold pid sel ps (fieldFold pid sel ps c) = fieldFold pid sel ps c := by
  induction ps with
  | nil => intro c; rfl
  | cons u ps ih =>
    intro c
    rw [fieldFold_cons, fieldFold_cons]
    by_cases h : (pid == u.1) = true
    · cases hs : sel u.2 with
      | none =>
        simp only [if_pos h, hs, ov]
        exact ih c
      | some v =>
        simp only [if_pos h, hs, ov]
    · simp only [if_neg h]
      exact ih c

theorem perRow_idem (ps : List (Nat × CropPatch)) (r : FocusCropRow) :
    ps.foldl rowApply1 (ps.foldl rowApply1 r) = ps.foldl rowApply1 r := by
  ext1
  · rw [perRow_id]
  · rw [perRow_name]
  · rw [perRow_field (fun x => x.bbch_sowing_min) (fun p => p.bbch_sowing_min)
        (fun _ _ => rfl) ps, perRow_id,
      perRow_field (fun x => x.bbch_sowing_min) (fun p => p.bbch_sowing_min)
        (fun _ _ => rfl) ps]
    exact fieldFold_idem _ _ _ _
  · rw [perRow_field (fun x => x.bbch_sowing_max) (fun p => p.bbch_sowing_max)
        (fun _ _ => rfl) ps, perRow_id,
      perRow_field (fun x => x.bbch_sowing_max) (fun p => p.bbch_sowing_max)
        (fun _ _ => rfl) ps]
    exact fieldFold_idem _ _ _ _
  · rw [perRow_field (fun x => x.bbch_harvest_min) (fun p => p.bbch_harvest_min)
        (fun _ _ => rfl) ps, perRow_id,
      perRow_field (fun x => x.bbch_harvest_min) (fun p => p.bbch_harvest_min)
        (fun _ _ => rfl) ps]
    exact fieldFold_idem _ _ _ _
  · rw [perRow_field (fun x => x.bbch_harvest_max) (fun p => p.bbch_harvest_max)
        (fun _ _ => rfl) ps, perRow_id,
      perRow_field (fun x => x.bbch_harvest_max) (fun p => p.bbch_harvest_max)
        (fun _ _ => rfl) ps]
    exact fieldFold_idem _ _ _ _
  · rw [perRow_field (fun x => x.canopy_type) (fun p => p.canopy_type)
        (fun _ _ => rfl) ps, perRow_id,
      perRow_field (fun x => x.canopy_type) (fun p => p.canopy_type)
        (fun _ _ => rfl) ps]
    exact fieldFold_idem _ _ _ _
  · rw [perRow_field (fun x => x.root_depth_m) (fun p => p.root_depth_m)
        (fun _ _ => rfl) ps, perRow_id,
      perRow_field (fun x => x.root_depth_m) (fun p => p.root_depth_m)
        (fun _ _ => rfl) ps]
    exact fieldFold_idem _ _ _ _
  · rw [perRow_field (fun x => x.lai_max) (fun p => p.lai_max)
        (fun _ _ => rfl) ps, perRow_id,
      perRow_field (fun x => x.lai_max) (fun p => p.lai_max)
        (fun _ _ => rfl) ps]
    exact fieldFold_idem _ _ _ _

theorem applyRowPatches_idem (tbl : List FocusCropRow) (ps : List (Nat × CropPatch)) :
    applyRowPatches (applyRowPatches tbl ps) ps = applyRowPatches tbl ps := by
  rw [applyRowPatches_map, applyRowPatches_map, List.map_map]
  congr 1
  funext r
  exact perRow_idem ps r

theorem updateFocusCrops_lookup (tbl : List FocusCropRow) (fid : Nat) (p : CropPatch)
    (n : String) :
    lookupFocusCropId (updateFocusCrops tbl fid p) n = lookupFocusCropId tbl n := by
  induction tbl with
  | nil => rfl
  | cons a tbl ih =>
    have hname : (if a.focus_crop_id == fid then applyPatch a p else a).swash_crop_name
        = a.swash_crop_name := by
      split <;> rfl
    have hid : (if a.focus_crop_id == fid then applyPatch a p else a).focus_crop_id
        = a.focus_crop_id := by
      split <;> rfl
    show lookupFocusCropId
        ((if a.focus_crop_id == fid then applyPatch a p else a) :: updateFocusCrops tbl fid p)
        n = lookupFocusCropId (a :: tbl) n
    unfold lookupFocusCropId
    rw [List.find?_cons, List.find?_cons, hname]
    cases h : (a.swash_crop_name == n) with
    | true =>
      simp only [Option.map_some']
      rw [hid]
    | false => exact ih

theorem applyRowPatches_lookup (ps : List (Nat × CropPatch)) :
    ∀ (tbl : List FocusCropRow) (n : String),
    lookupFocusCropId (applyRowPatches tbl ps) n = lookupFocusCropId tbl n := by
  induction ps with
  | nil => intro tbl n; rfl
  | cons u ps ih =>
    intro tbl n
    show lookupFocusCropId (applyRowPatches (updateFocusCrops tbl u.1 u.2) ps) n = _
    rw [ih, updateFocusCrops_lookup]

/-- The crop loop of the SWASH importer relative to a fixed reference table
`F`, from which only the name-to-id map is consulted: the patch list and
the skipped names, or the first uncaught parse error. -/
def cropsPhaseSpec (F : List FocusCropRow) :
    List CsvRow → Except String (List (Nat × CropPatch) × List String)
  | [] => .ok ([], [])
  | r :: rest =>
    if (pyStrip (rowGet r "CropName" "") == "") = true then cropsPhaseSpec F rest
    else
      match lookupFocusCropId F (pyStrip (rowGet r "CropName" "")) with
      | none =>
        match cropsPhaseSpec F rest with
        | .error e => .error e
        | .ok (ps, sk) => .ok (ps, pyStrip (rowGet r "CropName" "") :: sk)
      | some fid =>
        match cropPatchOfRow r with
        | .error e => .error e
        | .ok p =>
          match cropsPhaseSpec F rest with
          | .error e => .error e
          | .ok (ps, sk) => .ok ((if p.nonEmpty = true then [(fid, p)] else []) ++ ps, sk)

theorem cropsPhase_align (F : List FocusCropRow) (rows : List CsvRow) :
    ∀ (X : List FocusCropRow) (u0 : Nat) (sk0 : List String),
    (∀ n, lookupFocusCropId X n = lookupFocusCropId F n) →
    foldE (swashCropStep false) ⟨X, u0, sk0⟩ rows =
      (match cropsPhaseSpec F rows with
       | .error e => .error e
       | .ok (ps, sk) => .ok ⟨applyRowPatches X ps, u0 + ps.length, sk0 ++ sk⟩) := by
  induction rows with
  | nil =>
    intro X u0 sk0 _
    simp [foldE, cropsPhaseSpec, applyRowPatches]
  | cons r rest ih =>
    intro X u0 sk0 hEq
    by_cases hc : (pyStrip (rowGet r "CropName" "") == "") = true
    · have hstep : swashCropStep false ⟨X, u0, sk0⟩ r = .ok ⟨X, u0, sk0⟩ := by
        simp [swashCropStep, hc]
      rw [show foldE (swashCropStep false) ⟨X, u0, sk0⟩ (r :: rest)
          = foldE (swashCropStep false) ⟨X, u0, sk0⟩ rest by
          simp [foldE, hstep]]
      rw [ih X u0 sk0 hEq]
      simp only [cropsPhaseSpec, hc, if_true]
    · cases hl : lookupFocusCropId F (pyStrip (rowGet r "CropName" "")) with
      | none =>
        have hlx : lookupFocusCropId X (pyStrip (rowGet r "CropName" "")) = none := by
          rw [hEq]
          exact hl
        have hstep : swashCropStep false ⟨X, u0, sk0⟩ r =
            .ok ⟨X, u0, sk0 ++ [pyStrip (rowGet r "CropName" "")]⟩ := by
          simp [swashCropStep, hc, hlx]
        rw [show foldE (swashCropStep false) ⟨X, u0, sk0⟩ (r :: rest)
            = foldE (swashCropStep false)
                ⟨X, u0, sk0 ++ [pyStrip (rowGet r "CropName" "")]⟩ rest by
            simp [foldE, hstep]]
        rw [ih X u0 (sk0 ++ [pyStrip (rowGet r "CropName" "")]) hEq]
        simp only [cropsPhaseSpec, hc, hl, if_false]
        cases cropsPhaseSpec F rest with
        | error e => rfl
        | ok pssk =>
          obtain ⟨ps, sk⟩ := pssk
          simp [List.append_assoc]
      | some fid =>
        have hlx : lookupFocusCropId X (pyStrip (rowGet r "CropName" "")) = some fid := by
          rw [hEq]
          exact hl
        cases hpr : cropPatchOfRow r with
        | error e =>
          have hstep : swashCropStep false ⟨X, u0, sk0⟩ r = .error e := by
            simp [swashCropStep, hc, hlx, hpr, bind, Except.bind]
          rw [show foldE (swashCropStep false) ⟨X, u0, sk0⟩ (r :: rest) = .error e by
              simp [foldE, hstep]]
          simp [cropsPhaseSpec, hc, hl, hpr]
        | ok p =>
          by_cases hne : p.nonEmpty = true
          · have hstep : swashCropStep false ⟨X, u0, sk0⟩ r =
                .ok ⟨updateFocusCrops X fid p, u0 + 1, sk0⟩ := by
              simp [swashCropStep, hc, hlx, hpr, bind, Except.bind, hne]
            rw [show foldE (swashCropStep false) ⟨X, u0, sk0⟩ (r :: rest)
                = foldE (swashCropStep false) ⟨updateFocusCrops X fid p, u0 + 1, sk0⟩ rest by
                simp [foldE, hstep]]
            have hEq2 : ∀ n, lookupFocusCropId (updateFocusCrops X fid p) n
                = lookupFocusCropId F n := by
              intro n
              rw [updateFocusCrops_lookup, hEq]
            rw [ih _ (u0 + 1) sk0 hEq2]
            simp only [cropsPhaseSpec, hc, hl, hpr, hne, if_false, if_true]
            cases cropsPhaseSpec F rest with
            | error e => rfl
            | ok pssk =>
              obtain ⟨ps, sk⟩ := pssk
              simp only [List.singleton_append, List.length_cons]
              show (Except.ok (⟨applyRowPatches (updateFocusCrops X fid p) ps,
                  u0 + 1 + ps.length, sk0 ++ sk⟩ : SwashCropSt) : Except String SwashCropSt)
                = .ok ⟨applyRowPatches (updateFocusCrops X fid p) ps,
                    u0 + (ps.length + 1), sk0 ++ sk⟩
              congr 2
              omega
          · have hstep : swashCropStep false ⟨X, u0, sk0⟩ r = .ok ⟨X, u0, sk0⟩ := by
              simp [swashCropStep, hc, hlx, hpr, bind, Except.bind, hne]
            rw [show foldE (swashCropStep false) ⟨X, u0, sk0⟩ (r :: rest)
                = foldE (swashCropStep false) ⟨X, u0, sk0⟩ rest by
                simp [foldE, hstep]]
            rw [ih X u0 sk0 hEq]
            simp only [cropsPhaseSpec, hc, hl, hpr, hne, if_false]
            cases cropsPhaseSpec F rest with
            | error e => rfl
            | ok pssk =>
              obtain ⟨ps, sk⟩ := pssk
              simp

/-- The link loop of the SWASH importer relative to a fixed reference crop
table `F`: the insert list and skip entries, or the first `int()` error. -/
def linksPhaseSpec (ss : List ScenarioRow) (F : List FocusCropRow) :
    List CsvRow → Except String (List LinkRow × List (String × String))
  | [] => .ok ([], [])
  | r :: rest =>
    match (if rowGet r "IsDefault" "1" == "" then pure (1 : Int)
        else parseIntField (rowGet r "IsDefault" "1")) with
    | .error e => .error e
    | .ok d =>
      match lookupFocusCropId F (pyStrip (rowGet r "CropName" "")),
          lookupScenarioId ss (pyStrip (rowGet r "ScenarioCode" "")) with
      | some fid, some sid =>
        match linksPhaseSpec ss F rest with
        | .error e => .error e
        | .ok (ws, sk) =>
          .ok ((⟨fid, sid, some (pyStrip (rowGet r "WaterbodyType" "")), d⟩ : LinkRow) :: ws, sk)
      | none, _ =>
        match linksPhaseSpec ss F rest with
        | .error e => .error e
        | .ok (ws, sk) =>
          .ok (ws, (pyStrip (rowGet r "CropName" ""), pyStrip (rowGet r "ScenarioCode" "")) :: sk)
      | some _, none =>
        match linksPhaseSpec ss F rest with
        | .error e => .error e
        | .ok (ws, sk) =>
          .ok (ws, (pyStrip (rowGet r "CropName" ""), pyStrip (rowGet r "ScenarioCode" "")) :: sk)

theorem swashCsStep_error (ss : List ScenarioRow) (X : List FocusCropRow)
    (st : SwashCsSt) (r : CsvRow) (e : String)
    (hd : (if rowGet r "IsDefault" "1" == "" then pure (1 : Int)
        else parseIntField (rowGet r "IsDefault" "1")) = Except.error e) :
    swashCsStep ss X false st r = .error e := by
  by_cases hc : (rowGet r "IsDefault" "1" == "") = true
  · rw [if_pos hc] at hd
    simp [pure, Except.pure] at hd
  · rw [if_neg hc] at hd
    simp [swashCsStep, bind, Except.bind, hc, hd]

theorem swashCsStep_eval (ss : List ScenarioRow) (X : List FocusCropRow)
    (st : SwashCsSt) (r : CsvRow) (d : Int)
    (hd : (if rowGet r "IsDefault" "1" == "" then pure (1 : Int)
        else parseIntField (rowGet r "IsDefault" "1")) = Except.ok d) :
    swashCsStep ss X false st r =
      (match lookupFocusCropId X (pyStrip (rowGet r "CropName" "")),
          lookupScenarioId ss (pyStrip (rowGet r "ScenarioCode" "")) with
       | some fid, some sid =>
         .ok { st with
           tbl := insert_or_ignore linkKey st.tbl
             ⟨fid, sid, some (pyStrip (rowGet r "WaterbodyType" "")), d⟩,
           inserted := st.inserted + 1 }
       | none, _ =>
         .ok { st with skipped := st.skipped ++
           [(pyStrip (rowGet r "CropName" ""), pyStrip (rowGet r "ScenarioCode" ""))] }
       | some _, none =>
         .ok { st with skipped := st.skipped ++
           [(pyStrip (rowGet r "CropName" ""), pyStrip (rowGet r "ScenarioCode" ""))] }) := by
  by_cases hc : (rowGet r "IsDefault" "1" == "") = true
  · rw [if_pos hc] at hd
    have hd1 : (1 : Int) = d := by
      have := hd
      simp only [pure, Except.pure] at this
      injection this
    subst hd1
    simp [swashCsStep, bind, Except.bind, hc, pure, Except.pure]
  · rw [if_neg hc] at hd
    simp [swashCsStep, bind, Except.bind, hc, hd]

theorem linksPhase_align (ss : List ScenarioRow) (F : List FocusCropRow)
    (rows : List CsvRow) (X : List FocusCropRow)
    (hEq : ∀ n, lookupFocusCropId X n = lookupFocusCropId F n) :
    ∀ (L : List LinkRow) (i0 : Nat) (sk0 : List (String × String)),
    foldE (swashCsStep ss X false) ⟨L, i0, sk0⟩ rows =
      (match linksPhaseSpec ss F rows with
       | .error e => .error e
       | .ok (ws, sk) => .ok ⟨applyIgnores linkKey L ws, i0 + ws.length, sk0 ++ sk⟩) := by
  induction rows with
  | nil =>
    intro L i0 sk0
    simp [foldE, linksPhaseSpec, applyIgnores]
  | cons r rest ih =>
    intro L i0 sk0
    cases hd : (if rowGet r "IsDefault" "1" == "" then pure (1 : Int)
        else parseIntField (rowGet r "IsDefault" "1")) with
    | error e =>
      have hstep := swashCsStep_error ss X ⟨L, i0, sk0⟩ r e hd
      rw [show foldE (swashCsStep ss X false) ⟨L, i0, sk0⟩ (r :: rest) = .error e by
          simp [foldE, hstep]]
      simp only [linksPhaseSpec, hd]
    | ok d =>
      have heval := swashCsStep_eval ss X ⟨L, i0, sk0⟩ r d hd
      cases hf : lookupFocusCropId F (pyStrip (rowGet r "CropName" "")) with
      | none =>
        have hfx : lookupFocusCropId X (pyStrip (rowGet r "CropName" "")) = none := by
          rw [hEq]
          exact hf
        rw [hfx] at heval
        have hstep : swashCsStep ss X false ⟨L, i0, sk0⟩ r =
            .ok ⟨L, i0, sk0 ++ [(pyStrip (rowGet r "CropName" ""),
              pyStrip (rowGet r "ScenarioCode" ""))]⟩ := heval
        rw [show foldE (swashCsStep ss X false) ⟨L, i0, sk0⟩ (r :: rest)
            = foldE (swashCsStep ss X false) ⟨L, i0, sk0 ++ [(pyStrip (rowGet r "CropName" ""),
                pyStrip (rowGet r "ScenarioCode" ""))]⟩ rest by
            simp [foldE, hstep]]
        rw [ih L i0 (sk0 ++ [(pyStrip (rowGet r "CropName" ""),
          pyStrip (rowGet r "ScenarioCode" ""))])]
        simp only [linksPhaseSpec, hd, hf]
        cases linksPhaseSpec ss F rest with
        | error e => rfl
        | ok wssk =>
          obtain ⟨ws, sk⟩ := wssk
          simp [List.append_assoc]
      | some fid =>
        have hfx : lookupFocusCropId X (pyStrip (rowGet r "CropName" "")) = some fid := by
          rw [hEq]
          exact hf
        rw [hfx] at heval
        cases hs : lookupScenarioId ss (pyStrip (rowGet r "ScenarioCode" "")) with
        | none =>
          rw [hs] at heval
          have hstep : swashCsStep ss X false ⟨L, i0, sk0⟩ r =
              .ok ⟨L, i0, sk0 ++ [(pyStrip (rowGet r "CropName" ""),
                pyStrip (rowGet r "ScenarioCode" ""))]⟩ := heval
          rw [show foldE (swashCsStep ss X false) ⟨L, i0, sk0⟩ (r :: rest)
              = foldE (swashCsStep ss X false) ⟨L, i0,
                  sk0 ++ [(pyStrip (rowGet r "CropName" ""),
                    pyStrip (rowGet r "ScenarioCode" ""))]⟩ rest by
              simp [foldE, hstep]]
          rw [ih L i0 (sk0 ++ [(pyStrip (rowGet r "CropName" ""),
            pyStrip (rowGet r "ScenarioCode" ""))])]
          simp only [linksPhaseSpec, hd, hf, hs]
          cases linksPhaseSpec ss F rest with
          | error e => rfl
          | ok wssk =>
            obtain ⟨ws, sk⟩ := wssk
            simp [List.append_assoc]
        | some sid =>
          rw [hs] at heval
          have hstep : swashCsStep ss X false ⟨L, i0, sk0⟩ r =
              .ok ⟨insert_or_ignore linkKey L
                  ⟨fid, sid, some (pyStrip (rowGet r "WaterbodyType" "")), d⟩,
                i0 + 1, sk0⟩ := heval
          rw [show foldE (swashCsStep ss X false) ⟨L, i0, sk0⟩ (r :: rest)
              = foldE (swashCsStep ss X false) ⟨insert_or_ignore linkKey L
                  ⟨fid, sid, some (pyStrip (rowGet r "WaterbodyType" "")), d⟩,
                  i0 + 1, sk0⟩ rest by
              simp [foldE, hstep]]
          rw [ih _ (i0 + 1) sk0]
          simp only [linksPhaseSpec, hd, hf, hs]
          cases linksPhaseSpec ss F rest with
          | error e => rfl
          | ok wssk =>
            obtain ⟨ws, sk⟩ := wssk
            show (Except.ok (⟨applyIgnores linkKey (insert_or_ignore linkKey L
                ⟨fid, sid, some (pyStrip (rowGet r "WaterbodyType" "")), d⟩) ws,
                i0 + 1 + ws.length, sk0 ++ sk⟩ : SwashCsSt) : Except String SwashCsSt)
              = .ok ⟨applyIgnores linkKey (insert_or_ignore linkKey L
                  ⟨fid, sid, some (pyStrip (rowGet r "WaterbodyType" "")), d⟩) ws,
                  i0 + (ws.length + 1), sk0 ++ sk⟩
            congr 2
            omega

theorem import_from_csv_run (crops cs_rows : List CsvRow) (db : DB)
    (F : List FocusCropRow)
    (hEq : ∀ n, lookupFocusCropId db.focus_crops n = lookupFocusCropId F n) :
    import_from_csv crops cs_rows false db =
      (match cropsPhaseSpec F crops with
       | .error e => ⟨db, some e, 0, [], 0, []⟩
       | .ok (ps, sk) =>
         match linksPhaseSpec db.focus_scenarios F cs_rows with
         | .error e => ⟨db, some e, 0 + ps.length, [] ++ sk, 0, []⟩
         | .ok (ws, sk2) =>
           ⟨{ db with
               focus_crops := applyRowPatches db.focus_crops ps,
               focus_crop_scenario_links :=
                 (applyIgnores linkKey db.focus_crop_scenario_links ws) },
             none, 0 + ps.length, [] ++ sk, 0 + ws.length, [] ++ sk2⟩) := by
  unfold import_from_csv
  rw [cropsPhase_align F crops db.focus_crops 0 [] hEq]
  cases hcp : cropsPhaseSpec F crops with
  | error e => rfl
  | ok pssk =>
    obtain ⟨ps, sk⟩ := pssk
    show (match foldE (swashCsStep db.focus_scenarios (applyRowPatches db.focus_crops ps) false)
        ⟨db.focus_crop_scenario_links, 0, []⟩ cs_rows with
      | .error e =>
        (⟨db, some e, 0 + ps.length, [] ++ sk, 0, []⟩ : SwashOut)
      | .ok sst =>
        ⟨(if false = true then db
          else { db with
            focus_crops := applyRowPatches db.focus_crops ps,
            focus_crop_scenario_links := sst.tbl }), none, 0 + ps.length, [] ++ sk,
          sst.inserted, sst.skipped⟩) = _
    rw [linksPhase_align db.focus_scenarios F cs_rows (applyRowPatches db.focus_crops ps)
      (fun n => (applyRowPatches_lookup ps db.focus_crops n).trans (hEq n))
      db.focus_crop_scenario_links 0 []]
    cases hlp : linksPhaseSpec db.focus_scenarios F cs_rows with
    | error e => rfl
    | ok wssk =>
      obtain ⟨ws, sk2⟩ := wssk
      rfl

/-- Run the SWASH CSV importer twice in apply mode: same persisted database
as once. -/
theorem swash_idem (crops cs_rows : List CsvRow) (db : DB) :
    (import_from_csv crops cs_rows false
        (import_from_csv crops cs_rows false db).persisted).persisted
      = (import_from_csv crops cs_rows false db).persisted := by
  have h1 := import_from_csv_run crops cs_rows db db.focus_crops (fun _ => rfl)
  cases hcp : cropsPhaseSpec db.focus_crops crops with
  | error e =>
    rw [hcp] at h1
    simp [h1]
  | ok pssk =>
    obtain ⟨ps, sk⟩ := pssk
    rw [hcp] at h1
    cases hlp : linksPhaseSpec db.focus_scenarios db.focus_crops cs_rows with
    | error e =>
      rw [hlp] at h1
      simp [h1]
    | ok wssk =>
      obtain ⟨ws, sk2⟩ := wssk
      rw [hlp] at h1
      have h2 := import_from_csv_run crops cs_rows
        ({ db with
            focus_crops := applyRowPatches db.focus_crops ps,
            focus_crop_scenario_links :=
              (applyIgnores linkKey db.focus_crop_scenario_links ws) })
        db.focus_crops
        (fun n => applyRowPatches_lookup ps db.focus_crops n)
      simp only [hcp, hlp] at h2
      rw [h1]
      show (import_from_csv crops cs_rows false
          ({ db with
              focus_crops := applyRowPatches db.focus_crops ps,
              focus_crop_scenario_links :=
                (applyIgnores linkKey db.focus_crop_scenario_links ws) })).persisted
        = ({ db with
              focus_crops := applyRowPatches db.focus_crops ps,
              focus_crop_scenario_links :=
                (applyIgnores linkKey db.focus_crop_scenario_links ws) } : DB)
      rw [h2]
      show ({ db with
          focus_crops := applyRowPatches (applyRowPatches db.focus_crops ps) ps,
          focus_crop_scenario_links :=
            (applyIgnores linkKey (applyIgnores linkKey db.focus_crop_scenario_links ws) ws) } : DB)
        = _
      rw [applyRowPatches_idem, applyIgnores_idem]

/-- C2: running any importer twice in apply mode on the same input leaves
the persisted database exactly as after one run.  Inserts go through
`INSERT OR IGNORE` / `INSERT OR REPLACE` over the tables' natural keys, the
crop-parameter UPDATEs rewrite the same values, and a run aborted by an
uncaught exception commits nothing — so the second run never changes the
database further. -/
theorem C2_importers_idempotent :
    (∀ (hasO : Bool) (wb : Option Workbook) (ver : String) (db : DB),
        (import_primo hasO wb false ver (import_primo hasO wb false ver db).1).1
          = (import_primo hasO wb false ver db).1)
    ∧ (∀ (scs : List CharRec) (db : DB),
        (import_characteristics scs false (import_characteristics scs false db).1).1
          = (import_characteristics scs false db).1)
    ∧ (∀ (rows : List IrrRec) (db : DB),
        (import_irrigation rows false (import_irrigation rows false db).1).1
          = (import_irrigation rows false db).1)
    ∧ (∀ (items : List LinkRec) (db : DB),
        (import_links items false (import_links items false db).1).1
          = (import_links items false db).1)
    ∧ (∀ (crops cs_rows : List CsvRow) (db : DB),
        (import_from_csv crops cs_rows false
            (import_from_csv crops cs_rows false db).persisted).persisted
          = (import_from_csv crops cs_rows false db).persisted)
    ∧ (∀ (tbl_data : List (String × List (Int × Option Rat × String))) (db : DB),
        (import_interception tbl_data false (import_interception tbl_data false db).1).1
          = (import_interception tbl_data false db).1) :=
  ⟨primo_idem, char_idem, irr_idem, links_idem, swash_idem, inter_idem⟩
